import Mathlib

/-!
Verification development for the ASM2d-N2O activated-sludge model
(`asmbase.py` / `ASM2d_N2O.py`).

The Python code is shallowly embedded as follows.

* Python floats are modelled as exact rationals (`ℚ`).  The two
  transcendental float operations used by the code (`math.exp` at line 693
  of `ASM2d_N2O.py` and `** (1 / 2)` at line 744) are abstracted into a
  `PyEnv` record of functions `ℚ → ℚ`; every statement quantifies over it,
  so nothing depends on a particular approximation of `exp`/`sqrt`.
* Python dicts (`self._kinetics_20C`, `self._params`, `self._stoichs`) are
  association lists (`Dict`) in insertion order; assigning to an existing
  key overwrites it in place, assigning a new key appends it, exactly as a
  Python dict's insertion-order semantics behaves.
* Python exceptions are the `PyErr` inductive; fallible operations return
  `Except PyErr` values.  Division raises `zeroDivisionError` when the
  denominator is zero; list writes and reads out of range raise
  `indexError`; subscripting the `_monod` method raises `typeError`.
* The mutable instance (`self`) is an explicit `ModelState`; methods that
  mutate it (`_reaction_rate` writes `self._monods` and `self._rate_res`
  in place) are functions in the state-with-exceptions monad `PyM`, which
  keeps the partially updated state when an exception escapes, just as the
  Python instance does.
-/

set_option maxRecDepth 20000

namespace ASM2dN2O

/-! ## Python dicts as insertion-ordered association lists -/

abbrev Dict := List (String × ℚ)

/-- Lookup (`d[k]` read), first match. -/
def dget : Dict → String → Option ℚ
  | [], _ => none
  | (k', v) :: t, k => if k' = k then some v else dget t k

/-- Lookup with default 0.  Used only where every reachable state has the
key present (the parameter / stoichiometry dicts are fully populated by
`_set_params` / `_set_stoichs` before any read). -/
def dgetD (d : Dict) (k : String) : ℚ := (dget d k).getD 0

/-- `d.keys()`. -/
def dkeys (d : Dict) : List String := d.map Prod.fst

/-- Dict write `d[k] = v`: overwrite in place if the key exists, else
append (Python insertion-order semantics). -/
def dset : Dict → String → ℚ → Dict
  | [], k, v => [(k, v)]
  | (k', v') :: t, k, v => if k' = k then (k, v) :: t else (k', v') :: dset t k v

/-- A straight-line sequence of dict writes `d[k] = v`, executed in order. -/
def applyWrites (d : Dict) (ws : List (String × ℚ)) : Dict :=
  ws.foldl (fun d kv => dset d kv.1 kv.2) d

/-! ## Python exceptions and fallible arithmetic -/

inductive PyErr where
  | zeroDivisionError
  | indexError
  | typeError
  deriving DecidableEq

abbrev EM (α : Type) := Except PyErr α

/-- Python float division: raises `ZeroDivisionError` on a zero
denominator, otherwise exact division. -/
def ediv (a b : ℚ) : EM ℚ :=
  if b = 0 then .error .zeroDivisionError else .ok (a / b)

/-- `asm_model._monod` (asmbase.py lines 176-187):
`term_in_num_denum / (term_in_num_denum + term_only_in_denum)`. -/
def emonod (a b : ℚ) : EM ℚ := ediv a (a + b)

/-- Python list read `l[i]` for a non-negative index. -/
def eidx (l : List ℚ) (i : Nat) : EM ℚ :=
  match l.get? i with
  | some v => .ok v
  | none => .error .indexError

/-- The two transcendental float operations, abstracted:
`exp` is `math.exp`, `sqrtq` is `x ** (1 / 2)`. -/
structure PyEnv where
  exp : ℚ → ℚ
  sqrtq : ℚ → ℚ

/-! ## The model instance and the state-with-exceptions monad -/

/-- The mutable fields of an `ASM2d_N2O` instance (asmbase.py `__init__`
plus the subclass buffers). -/
structure ModelState where
  temperature : ℚ
  bulk_DO : ℚ
  kinetics20C : Dict
  params : Dict
  stoichs : Dict
  comps : List ℚ
  delta_t : ℚ
  KLa : ℚ
  monods : List ℚ
  rateRes : List ℚ
  deriving DecidableEq

/-- State-passing with Python exception semantics: on an exception the
state mutated so far is kept (instance attributes stay updated even when
a method raises). -/
def PyM (α : Type) := ModelState → ModelState × EM α

instance : Monad PyM where
  pure a := fun s => (s, .ok a)
  bind x f := fun s =>
    match x s with
    | (s', .ok a) => f a s'
    | (s', .error e) => (s', .error e)

/-- Lift a pure fallible value (no state access). -/
def liftE {α : Type} (e : EM α) : PyM α := fun s => (s, e)

/-- Read a value out of the state without mutating it. -/
def reads {α : Type} (f : ModelState → α) : PyM α := fun s => (s, .ok (f s))

/-- `self._monods[i] = v`: raises `IndexError` when `i` is out of range
(Python list assignment does not grow the list). -/
def setMonod (i : Nat) (v : ℚ) : PyM Unit := fun s =>
  if i < s.monods.length then ({ s with monods := s.monods.set i v }, .ok ())
  else (s, .error .indexError)

/-- `self._rate_res[i] = v`. -/
def setRate (i : Nat) (v : ℚ) : PyM Unit := fun s =>
  if i < s.rateRes.length then ({ s with rateRes := s.rateRes.set i v }, .ok ())
  else (s, .error .indexError)

/-- A run of straight-line buffer assignments `set i v₀; set (i+1) v₁; …`
where each right-hand side is a pure fallible expression (evaluated before
the assignment, as in Python). -/
def writeSeq (set : Nat → ℚ → PyM Unit) : Nat → List (EM ℚ) → PyM Unit
  | _, [] => pure ()
  | i, v :: t => fun s =>
    match v with
    | .error e => (s, .error e)
    | .ok x =>
      match set i x s with
      | (s₂, .ok _) => writeSeq set (i + 1) t s₂
      | (s₂, .error e) => (s₂, .error e)

/-! ## Default kinetics at 20 °C
(`_set_ideal_kinetics_20C_to_defaults`, ASM2d_N2O.py lines 62-185).
The method writes each key once into the empty dict `self._kinetics_20C`,
so the resulting dict is this literal list, in source order. -/

def kineticsDefaults : Dict :=
  [("i_NSF", 0.03), ("i_PSF", 0.01), ("i_NSI", 0.01), ("i_PSI", 0.0),
   ("i_NXI", 0.02), ("i_PXI", 0.01), ("i_TSSXI", 0.75), ("i_NXS", 0.04),
   ("i_PXS", 0.01), ("i_TSSXS", 0.75), ("i_NBM", 0.07), ("i_PBM", 0.02),
   ("i_TSSBM", 0.9),
   ("Y_H", 0.625), ("Y_PHA", 0.2), ("Y_PAO", 0.625), ("Y_PO4", 0.4),
   ("Y_AOB", 0.18), ("Y_NOB", 0.08), ("f_SI", 0.0), ("f_XI", 0.1),
   ("n_G", 1.0),
   ("K_H", 3.0), ("K_O2_H", 0.2), ("K_X_H", 0.1), ("n_NO3_H", 0.6),
   ("n_NO2_H", 0.6), ("K_NO3_H", 0.5), ("K_NO2_H", 0.5), ("n_fe_H", 0.4),
   ("mu_H", 6.0), ("K_O2", 0.2), ("K_F", 4.0), ("K_NH4", 0.05),
   ("K_P", 0.01), ("K_ALK", 0.1), ("K_A", 4.0), ("K_NO3", 0.5),
   ("K_NO2", 0.5), ("n_NO3_D", 0.8), ("q_fe", 3.0), ("K_fe_H", 4.0),
   ("b_H", 0.4), ("mu_H_Den", 6.25), ("n_G3", 0.16), ("n_G4", 0.35),
   ("n_G5", 0.35), ("K_S3", 20.0), ("K_S4", 20.0), ("K_S5", 40.0),
   ("K_NO2_Den", 0.2), ("K_OH4", 0.1), ("K_N2O_Den", 0.05), ("K_OH3", 0.1),
   ("K_NO_Den", 0.05), ("K_OH5", 0.1), ("K_I3NO", 0.5), ("K_I4NO", 0.3),
   ("K_I5NO", 0.075),
   ("q_PHA", 3.0), ("K_A_P", 4.0), ("K_ALK_P", 0.1), ("q_PP", 1.5),
   ("K_O2_P", 0.2), ("K_P_P", 0.2), ("K_PHA_P", 0.01), ("K_MAX_P", 0.34),
   ("K_PP_P", 0.01), ("K_IPP_P", 0.02), ("K_PO4_P", 0.01), ("n_NO3_P", 0.6),
   ("n_NO2_P", 0.6), ("K_NO3_P", 0.5), ("K_NO2_P", 0.5), ("mu_PAO", 1.0),
   ("b_PAO", 0.2), ("b_PP", 0.2), ("b_PHA", 0.2),
   ("mu_AOB_HAO", 0.78), ("q_AOB_AMO", 5.2008), ("K_O2_AOB1", 1.0),
   ("K_NH4_AOB", 0.2), ("K_O2_AOB2", 0.6), ("K_NH2OH_AOB", 0.9),
   ("q_AOB_HAO", 5.2008), ("K_NO_AOB_HAO", 0.0003), ("q_AOB_N2O_NN", 0.0078),
   ("K_NO_AOB_NN", 0.008), ("K_O2_AOB_ND", 0.5), ("K_I_O2_AOB", 0.8),
   ("K_HNO2_AOB", 0.004), ("q_AOB_N2O_ND", 1.3008), ("K_ALK_AOB", 0.1),
   ("K_P_AOB", 0.01), ("mu_NOB", 0.78), ("K_O2_NOB", 1.2),
   ("K_ALK_NOB", 0.1), ("K_NO2_NOB", 0.5), ("K_P_NOB", 0.01),
   ("b_AOB", 0.096), ("b_NOB", 0.096),
   ("k_PRE", 1.0), ("k_RED", 0.6), ("K_ALK_PR", 0.5)]

/-- The keys written by `_set_params` (ASM2d_N2O.py lines 187-308), in
source order.  Each statement there is
`self._params[k] = self._kinetics_20C[k]` for these keys in this order. -/
def paramKeys : List String :=
  ["i_NSF", "i_PSF", "i_NSI", "i_PSI", "i_NXI", "i_PXI", "i_TSSXI",
   "i_NXS", "i_PXS", "i_TSSXS", "i_NBM", "i_PBM", "i_TSSBM",
   "Y_H", "Y_PHA", "Y_PAO", "Y_PO4", "Y_AOB", "Y_NOB", "f_SI", "f_XI",
   "n_G",
   "K_H", "K_O2_H", "K_X_H", "n_NO3_H", "n_NO2_H", "K_NO3_H", "K_NO2_H",
   "n_fe_H",
   "mu_H", "K_O2", "K_F", "K_NH4", "K_P", "K_ALK", "K_A", "K_NO3",
   "K_NO2", "n_NO3_D", "q_fe", "K_fe_H", "b_H", "mu_H_Den", "n_G3",
   "n_G4", "n_G5", "K_S3", "K_S4", "K_S5", "K_NO2_Den", "K_OH4",
   "K_N2O_Den", "K_OH3", "K_NO_Den", "K_OH5", "K_I3NO", "K_I4NO",
   "K_I5NO",
   "q_PHA", "K_A_P", "K_ALK_P", "q_PP", "K_O2_P", "K_P_P", "K_PHA_P",
   "K_MAX_P", "K_PP_P", "K_IPP_P", "K_PO4_P", "n_NO3_P", "n_NO2_P",
   "K_NO3_P", "K_NO2_P", "mu_PAO", "b_PAO", "b_PP", "b_PHA",
   "mu_AOB_HAO", "q_AOB_AMO", "K_O2_AOB1", "K_NH4_AOB", "K_O2_AOB2",
   "K_NH2OH_AOB", "q_AOB_HAO", "K_NO_AOB_HAO", "q_AOB_N2O_NN",
   "K_NO_AOB_NN", "K_O2_AOB_ND", "K_I_O2_AOB", "K_HNO2_AOB",
   "q_AOB_N2O_ND", "K_ALK_AOB", "K_P_AOB", "mu_NOB", "K_O2_NOB",
   "K_ALK_NOB", "K_NO2_NOB", "K_P_NOB", "b_AOB", "b_NOB",
   "k_PRE", "k_RED", "K_ALK_PR"]

/-- The dict writes performed by `_set_params`: every reference constant is
copied into the working set (identity copy; the temperature correction is
an unimplemented TODO in the source).  In every reachable state
`kinetics20C` contains all of `paramKeys`, so the `KeyError` path of the
Python reads is unreachable and `dgetD` is adequate. -/
def paramWrites (kin : Dict) : List (String × ℚ) :=
  paramKeys.map fun k => (k, dgetD kin k)

/-! ## Stoichiometric matrix builder
(`_set_stoichs`, ASM2d_N2O.py lines 310-629.)

Each source statement is a dict write `self._stoichs['x_y'] = …`; the
entries that read back an already-written entry of the same row
(`self._stoichs['1_4']` inside the `'1_12'` formula, etc.) are let-bound
here, so every read refers to the value written a few lines above, exactly
as the textual-order execution of the source does.  In every reachable
state the yield parameters divided by (`Y_H`, `n_G`, `Y_PAO`, `Y_AOB`,
`Y_NOB`) are positive — the defaults are positive and `alter_kinetic_20C`
only accepts positive values — so Python's `ZeroDivisionError` path is
unreachable and total `ℚ` division is faithful here. -/

def stoichWrites (p : Dict) : List (String × ℚ) :=
  let pr := dgetD p
  let f_SI := pr "f_SI"
  let i_NSF := pr "i_NSF"
  let i_PSF := pr "i_PSF"
  let i_NXS := pr "i_NXS"
  let i_PXS := pr "i_PXS"
  let i_TSSXS := pr "i_TSSXS"
  let i_TSSXI := pr "i_TSSXI"
  let i_TSSBM := pr "i_TSSBM"
  let i_NBM := pr "i_NBM"
  let i_PBM := pr "i_PBM"
  let i_NXI := pr "i_NXI"
  let i_PXI := pr "i_PXI"
  let f_XI := pr "f_XI"
  let Y_H := pr "Y_H"
  let n_G := pr "n_G"
  let Y_PO4 := pr "Y_PO4"
  let Y_PHA := pr "Y_PHA"
  let Y_PAO := pr "Y_PAO"
  let Y_AOB := pr "Y_AOB"
  let Y_NOB := pr "Y_NOB"
  -- rows 1-4: hydrolysis (lines 320-350)
  let s1_4 := i_NXS - (1.0 - f_SI) * i_NSF
  let s1_10 := i_PXS - (1.0 - f_SI) * i_PSF
  let s2_4 := i_NXS - (1.0 - f_SI) * i_NSF
  let s2_10 := i_PXS - (1.0 - f_SI) * i_PSF
  let s3_4 := i_NXS - (1.0 - f_SI) * i_NSF
  let s3_10 := i_PXS - (1.0 - f_SI) * i_PSF
  let s4_4 := i_NXS - (1.0 - f_SI) * i_NSF
  let s4_10 := i_PXS - (1.0 - f_SI) * i_PSF
  -- rows 5-6: aerobic heterotroph growth (lines 352-366)
  let s5_4 := i_NSF / Y_H - i_NBM
  let s5_10 := i_PSF / Y_H - i_PBM
  let s6_3 := -1.0 / Y_H
  let s6_4 := 0.0 - i_NBM
  let s6_10 := 0.0 - i_PBM
  -- rows 7-14: anoxic heterotroph growth (lines 368-438)
  let s7_4 := i_NSF / Y_H - i_NBM
  let s7_8 := (1.0 - Y_H * n_G) / ((8 / 7) * Y_H * n_G)
  let s7_9 := 0.0 - (1.0 - Y_H * n_G) / ((8 / 7) * Y_H * n_G)
  let s7_10 := i_PSF / Y_H - i_PBM
  let s8_4 := i_NSF / Y_H - i_NBM
  let s8_8 := 0.0 - (1.0 - Y_H * n_G) / ((4 / 7) * Y_H * n_G)
  let s8_10 := i_PSF / Y_H - i_PBM
  let s9_4 := i_NSF / Y_H - i_NBM
  let s9_10 := i_PSF / Y_H - i_PBM
  let s10_4 := i_NSF / Y_H - i_NBM
  let s10_10 := i_PSF / Y_H - i_PBM
  let s11_3 := -1.0 / (Y_H * n_G)
  let s11_4 := 0.0 - i_NBM
  let s11_8 := (1.0 - Y_H * n_G) / ((8 / 7) * Y_H * n_G)
  let s11_9 := 0.0 - (1.0 - Y_H * n_G) / ((8 / 7) * Y_H * n_G)
  let s11_10 := 0.0 - i_PBM
  let s12_3 := -1.0 / (Y_H * n_G)
  let s12_4 := 0.0 - i_NBM
  let s12_8 := 0.0 - (1.0 - Y_H * n_G) / ((4 / 7) * Y_H * n_G)
  let s12_10 := 0.0 - i_PBM
  let s13_3 := -1.0 / (Y_H * n_G)
  let s13_4 := 0.0 - i_NBM
  let s13_10 := 0.0 - i_PBM
  let s14_3 := -1.0 / (Y_H * n_G)
  let s14_4 := 0.0 - i_NBM
  let s14_10 := 0.0 - i_PBM
  -- rows 15-16 (lines 440-452)
  let s15_3 := 1.0
  let s15_4 := i_NSF
  let s15_10 := i_PSF
  let s16_4 := i_NBM - i_NXI * f_XI - (1.0 - f_XI) * i_NXS
  let s16_10 := i_PBM - i_PXI * f_XI - (1.0 - f_XI) * i_PXS
  let s16_14 := f_XI
  let s16_15 := 1.0 - f_XI
  let s16_16 := -1.0
  -- rows 17-22: PAO storage (lines 454-498)
  let s17_3 := -1.0
  let s17_10 := Y_PO4
  let s17_18 := 0.0 - Y_PO4
  let s17_19 := 1.0
  let s18_10 := -1.0
  let s18_18 := 1.0
  let s18_19 := 0.0 - Y_PHA
  let s19_8 := Y_PHA / (8 / 7)
  let s19_9 := 0.0 - Y_PHA / (8 / 7)
  let s19_10 := -1.0
  let s19_18 := 1.0
  let s19_19 := 0.0 - Y_PHA
  let s20_8 := 0.0 - Y_PHA / (4 / 7)
  let s20_10 := -1.0
  let s20_18 := 1.0
  let s20_19 := 0.0 - Y_PHA
  let s21_10 := -1.0
  let s21_18 := 1.0
  let s21_19 := 0.0 - Y_PHA
  let s22_10 := -1.0
  let s22_18 := 1.0
  let s22_19 := 0.0 - Y_PHA
  -- rows 23-28: PAO growth and lysis (lines 500-550)
  let s23_4 := 0.0 - i_NBM
  let s23_10 := 0.0 - i_PBM
  let s23_17 := 1.0
  let s23_19 := -1.0 / Y_PAO
  let s24_4 := 0.0 - i_NBM
  let s24_8 := (1.0 - Y_PAO * n_G) / ((8 / 7) * Y_PAO * n_G)
  let s24_9 := 0.0 - (1.0 - Y_PAO * n_G) / ((8 / 7) * Y_PAO * n_G)
  let s24_10 := 0.0 - i_PBM
  let s24_17 := 1.0
  let s24_19 := -1.0 / Y_PAO
  let s25_4 := 0.0 - i_NBM
  let s25_8 := 0.0 - (1.0 - Y_PAO * n_G) / ((4 / 7) * Y_PAO * n_G)
  let s25_10 := 0.0 - i_PBM
  let s25_17 := 1.0
  let s25_19 := -1.0 / Y_PAO
  let s26_4 := 0.0 - i_NBM
  let s26_10 := 0.0 - i_PBM
  let s26_17 := 1.0
  let s26_19 := -1.0 / Y_PAO
  let s27_4 := 0.0 - i_NBM
  let s27_10 := 0.0 - i_PBM
  let s27_17 := 1.0
  let s27_19 := -1.0 / Y_PAO
  let s28_4 := i_NBM - i_NXI * f_XI - (1.0 - f_XI) * i_NXS
  let s28_10 := i_PBM - i_PXI * f_XI - (1.0 - f_XI) * i_PXS
  let s28_14 := f_XI
  let s28_15 := 1.0 - f_XI
  let s28_17 := -1.0
  -- rows 29-31 (lines 552-565)
  let s29_10 := 1.0
  let s29_18 := -1.0
  let s30_3 := 1.0
  let s30_19 := -1.0
  let s31_4 := -1.0
  -- rows 32-36: nitrifiers (lines 567-599)
  let s32_4 := 0.0 - i_NBM
  let s32_10 := 0.0 - i_PBM
  let s32_20 := 1.0
  let s33_8 := 1.0
  let s34_8 := 1.0
  let s35_8 := -1.0
  let s36_4 := 0.0 - i_NBM
  let s36_8 := -1.0 / Y_NOB
  let s36_9 := 1.0 / Y_NOB
  let s36_10 := 0.0 - i_PBM
  let s36_21 := 1.0
  -- rows 37-40 (lines 601-627)
  let s37_4 := i_NBM - i_NXI * f_XI - (1.0 - f_XI) * i_NXS
  let s37_10 := i_PBM - i_PXI * f_XI - (1.0 - f_XI) * i_PXS
  let s37_14 := f_XI
  let s37_15 := 1.0 - f_XI
  let s37_20 := -1.0
  let s38_4 := i_NBM - i_NXI * f_XI - (1.0 - f_XI) * i_NXS
  let s38_10 := i_PBM - i_PXI * f_XI - (1.0 - f_XI) * i_PXS
  let s38_14 := f_XI
  let s38_15 := 1.0 - f_XI
  let s38_21 := -1.0
  let s39_10 := -1.0
  let s39_23 := -3.45
  let s39_24 := 4.87
  let s40_10 := 1.0
  let s40_23 := 3.45
  let s40_24 := -4.87
  [("1_2", 1.0 - f_SI), ("1_4", s1_4), ("1_10", s1_10), ("1_11", f_SI),
   ("1_15", -1.0), ("1_12", (1 / 14) * s1_4 + (-1.5 / 31) * s1_10),
   ("1_22", i_TSSXS * (-1.0 : ℚ)),
   ("2_2", 1.0 - f_SI), ("2_4", s2_4), ("2_10", s2_10), ("2_11", f_SI),
   ("2_15", -1.0), ("2_12", (1 / 14) * s2_4 + (-1.5 / 31) * s2_10),
   ("2_22", i_TSSXS * (-1.0 : ℚ)),
   ("3_2", 1.0 - f_SI), ("3_4", s3_4), ("3_10", s3_10), ("3_11", f_SI),
   ("3_15", -1.0), ("3_12", (1 / 14) * s3_4 + (-1.5 / 31) * s3_10),
   ("3_22", i_TSSXS * (-1.0 : ℚ)),
   ("4_2", 1.0 - f_SI), ("4_4", s4_4), ("4_10", s4_10), ("4_11", f_SI),
   ("4_15", -1.0), ("4_12", (1 / 14) * s4_4 + (-1.5 / 31) * s4_10),
   ("4_22", i_TSSXS * (-1.0 : ℚ)),
   ("5_1", 1.0 - 1.0 / Y_H), ("5_2", -1.0 / Y_H), ("5_4", s5_4),
   ("5_10", s5_10), ("5_16", 1.0),
   ("5_12", (1 / 14) * s5_4 + (-1.5 / 31) * s5_10),
   ("5_22", i_TSSBM * (1.0 : ℚ)),
   ("6_1", 1.0 - 1.0 / Y_H), ("6_3", s6_3), ("6_4", s6_4), ("6_10", s6_10),
   ("6_16", 1.0),
   ("6_12", (-1 / 64) * s6_3 + (1 / 14) * s6_4 + (-1.5 / 31) * s6_10),
   ("6_22", i_TSSBM * (1.0 : ℚ)),
   ("7_2", -1.0 / (Y_H * n_G)), ("7_4", s7_4), ("7_8", s7_8), ("7_9", s7_9),
   ("7_10", s7_10), ("7_16", 1.0),
   ("7_12", (1 / 14) * s7_4 + (-1 / 14) * s7_8 + (-1 / 14) * s7_9
      + (-1.5 / 31) * s7_10),
   ("7_22", i_TSSBM * (1.0 : ℚ)),
   ("8_2", -1.0 / (Y_H * n_G)), ("8_4", s8_4),
   ("8_7", (1.0 - Y_H * n_G) / ((4 / 7) * Y_H * n_G)), ("8_8", s8_8),
   ("8_10", s8_10), ("8_16", 1.0),
   ("8_12", (1 / 14) * s8_4 + (-1 / 14) * s8_8 + (-1.5 / 31) * s8_10),
   ("8_22", i_TSSBM * (1.0 : ℚ)),
   ("9_2", -1.0 / (Y_H * n_G)), ("9_4", s9_4),
   ("9_6", (1.0 - Y_H * n_G) / ((4 / 7) * Y_H * n_G)),
   ("9_7", 0.0 - (1.0 - Y_H * n_G) / ((4 / 7) * Y_H * n_G)),
   ("9_10", s9_10), ("9_16", 1.0),
   ("9_12", (1 / 14) * s9_4 + (-1.5 / 31) * s9_10),
   ("9_22", i_TSSBM * (1.0 : ℚ)),
   ("10_2", -1.0 / (Y_H * n_G)), ("10_4", s10_4),
   ("10_6", 0.0 - (1.0 - Y_H * n_G) / ((4 / 7) * Y_H * n_G)),
   ("10_10", s10_10),
   ("10_13", (1.0 - Y_H * n_G) / ((4 / 7) * Y_H * n_G)), ("10_16", 1.0),
   ("10_12", (1 / 14) * s10_4 + (-1.5 / 31) * s10_10),
   ("10_22", i_TSSBM * (1.0 : ℚ)),
   ("11_3", s11_3), ("11_4", s11_4), ("11_8", s11_8), ("11_9", s11_9),
   ("11_10", s11_10), ("11_16", 1.0),
   ("11_12", (-1 / 64) * s11_3 + (1 / 14) * s11_4 + (-1 / 14) * s11_8
      + (-1 / 14) * s11_9 + (-1.5 / 31) * s11_10),
   ("11_22", i_TSSBM * (1.0 : ℚ)),
   ("12_3", s12_3), ("12_4", s12_4),
   ("12_7", (1.0 - Y_H * n_G) / ((4 / 7) * Y_H * n_G)), ("12_8", s12_8),
   ("12_10", s12_10), ("12_16", 1.0),
   ("12_12", (-1 / 64) * s12_3 + (1 / 14) * s12_4 + (-1 / 14) * s12_8
      + (-1.5 / 31) * s12_10),
   ("12_22", i_TSSBM * (1.0 : ℚ)),
   ("13_3", s13_3), ("13_4", s13_4),
   ("13_6", (1.0 - Y_H * n_G) / ((4 / 7) * Y_H * n_G)),
   ("13_7", 0.0 - (1.0 - Y_H * n_G) / ((4 / 7) * Y_H * n_G)),
   ("13_10", s13_10), ("13_16", 1.0),
   ("13_12", (-1 / 64) * s13_3 + (1 / 14) * s13_4 + (-1.5 / 31) * s13_10),
   ("13_22", i_TSSBM * (1.0 : ℚ)),
   ("14_3", s14_3), ("14_4", s14_4),
   ("14_6", 0.0 - (1.0 - Y_H * n_G) / ((4 / 7) * Y_H * n_G)),
   ("14_10", s14_10),
   ("14_13", (1.0 - Y_H * n_G) / ((4 / 7) * Y_H * n_G)), ("14_16", 1.0),
   ("14_12", (-1 / 64) * s14_3 + (1 / 14) * s14_4 + (-1.5 / 31) * s14_10),
   ("14_22", i_TSSBM * (1.0 : ℚ)),
   ("15_2", -1.0), ("15_3", s15_3), ("15_4", s15_4), ("15_10", s15_10),
   ("15_12", (-1 / 64) * s15_3 + (1 / 14) * s15_4 + (-1.5 / 31) * s15_10),
   ("16_4", s16_4), ("16_10", s16_10), ("16_14", s16_14),
   ("16_15", s16_15), ("16_16", s16_16),
   ("16_12", (1 / 14) * s16_4 + (-1.5 / 31) * s16_10),
   ("16_22", i_TSSXI * s16_14 + i_TSSXS * s16_15 + i_TSSBM * s16_16),
   ("17_3", s17_3), ("17_10", s17_10), ("17_18", s17_18), ("17_19", s17_19),
   ("17_12", (-1 / 64) * s17_3 + (-1.5 / 31) * s17_10 + (-1 / 31) * s17_18),
   ("17_22", 3.23 * s17_18 + 0.6 * s17_19),
   ("18_1", 0.0 - Y_PHA), ("18_10", s18_10), ("18_18", s18_18),
   ("18_19", s18_19),
   ("18_12", (-1.5 / 31) * s18_10 + (-1 / 31) * s18_18),
   ("18_22", 3.23 * s18_18 + 0.6 * s18_19),
   ("19_8", s19_8), ("19_9", s19_9), ("19_10", s19_10), ("19_18", s19_18),
   ("19_19", s19_19),
   ("19_12", (-1 / 14) * s19_8 + (-1 / 14) * s19_9 + (-1.5 / 31) * s19_10
      + (-1 / 31) * s19_18),
   ("19_22", 3.23 * s19_18 + 0.6 * s19_19),
   ("20_7", Y_PHA / (4 / 7)), ("20_8", s20_8), ("20_10", s20_10),
   ("20_18", s20_18), ("20_19", s20_19),
   ("20_12", (-1 / 14) * s20_8 + (-1.5 / 31) * s20_10 + (-1 / 31) * s20_18),
   ("20_22", 3.23 * s20_18 + 0.6 * s20_19),
   ("21_6", Y_PHA / (4 / 7)), ("21_7", 0.0 - Y_PHA / (4 / 7)),
   ("21_10", s21_10), ("21_18", s21_18), ("21_19", s21_19),
   ("21_12", (-1.5 / 31) * s21_10 + (-1 / 31) * s21_18),
   ("21_22", 3.23 * s21_18 + 0.6 * s21_19),
   ("22_6", 0.0 - Y_PHA / (4 / 7)), ("22_10", s22_10),
   ("22_13", Y_PHA / (4 / 7)), ("22_18", s22_18), ("22_19", s22_19),
   ("22_12", (-1.5 / 31) * s22_10 + (-1 / 31) * s22_18),
   ("22_22", 3.23 * s22_18 + 0.6 * s22_19),
   ("23_1", 1.0 - 1.0 / Y_PAO), ("23_4", s23_4), ("23_10", s23_10),
   ("23_17", s23_17), ("23_19", s23_19),
   ("23_12", (1 / 14) * s23_4 + (-1.5 / 31) * s23_10),
   ("23_22", i_TSSBM * s23_17 + 0.6 * s23_19),
   ("24_4", s24_4), ("24_8", s24_8), ("24_9", s24_9), ("24_10", s24_10),
   ("24_17", s24_17), ("24_19", s24_19),
   ("24_12", (1 / 14) * s24_4 + (-1 / 14) * s24_8 + (-1 / 14) * s24_9
      + (-1.5 / 31) * s24_10),
   ("24_22", i_TSSBM * s24_17 + 0.6 * s24_19),
   ("25_4", s25_4),
   ("25_7", (1.0 - Y_PAO * n_G) / ((4 / 7) * Y_PAO * n_G)), ("25_8", s25_8),
   ("25_10", s25_10), ("25_17", s25_17), ("25_19", s25_19),
   ("25_12", (1 / 14) * s25_4 + (-1 / 14) * s25_8 + (-1.5 / 31) * s25_10),
   ("25_22", i_TSSBM * s25_17 + 0.6 * s25_19),
   ("26_4", s26_4),
   ("26_6", (1.0 - Y_PAO * n_G) / ((4 / 7) * Y_PAO * n_G)),
   ("26_7", 0.0 - (1.0 - Y_PAO * n_G) / ((4 / 7) * Y_PAO * n_G)),
   ("26_10", s26_10), ("26_17", s26_17), ("26_19", s26_19),
   ("26_12", (1 / 14) * s26_4 + (-1.5 / 31) * s26_10),
   ("26_22", i_TSSBM * s26_17 + 0.6 * s26_19),
   ("27_4", s27_4),
   ("27_6", 0.0 - (1.0 - Y_PAO * n_G) / ((4 / 7) * Y_PAO * n_G)),
   ("27_10", s27_10),
   ("27_13", (1.0 - Y_PAO * n_G) / ((4 / 7) * Y_PAO * n_G)),
   ("27_17", s27_17), ("27_19", s27_19),
   ("27_12", (1 / 14) * s27_4 + (-1.5 / 31) * s27_10),
   ("27_22", i_TSSBM * s27_17 + 0.6 * s27_19),
   ("28_4", s28_4), ("28_10", s28_10), ("28_14", s28_14),
   ("28_15", s28_15), ("28_17", s28_17),
   ("28_12", (1 / 14) * s28_4 + (-1.5 / 31) * s28_10),
   ("28_22", i_TSSXI * s28_14 + i_TSSXS * s28_15 + i_TSSBM * s28_17),
   ("29_10", s29_10), ("29_18", s29_18),
   ("29_12", (-1.5 / 31) * s29_10 + (-1 / 31) * s29_18),
   ("29_22", 3.23 * s29_18),
   ("30_3", s30_3), ("30_19", s30_19),
   ("30_12", (-1 / 64) * s30_3), ("30_22", 0.6 * s30_19),
   ("31_1", -8 / 7), ("31_4", s31_4), ("31_5", 1.0),
   ("31_12", (1 / 14) * s31_4),
   ("32_1", 0.0 - ((12 / 7) - Y_AOB) / Y_AOB), ("32_4", s32_4),
   ("32_5", -1.0 / Y_AOB), ("32_7", 1.0 / Y_AOB), ("32_10", s32_10),
   ("32_20", s32_20),
   ("32_12", (1 / 14) * s32_4 + (-1.5 / 31) * s32_10),
   ("32_22", i_TSSBM * s32_20),
   ("33_1", -4 / 7), ("33_7", -1.0), ("33_8", s33_8),
   ("33_12", (-1 / 14) * s33_8),
   ("34_5", -1.0), ("34_6", 4.0), ("34_7", -4.0), ("34_8", s34_8),
   ("34_12", (-1 / 14) * s34_8),
   ("35_5", -1.0), ("35_6", 2.0), ("35_8", s35_8),
   ("35_12", (-1 / 14) * s35_8),
   ("36_1", 0.0 - ((8 / 7) - Y_NOB) / Y_NOB), ("36_4", s36_4),
   ("36_8", s36_8), ("36_9", s36_9), ("36_10", s36_10), ("36_21", s36_21),
   ("36_12", (1 / 14) * s36_4 + (-1 / 14) * s36_8 + (-1 / 14) * s36_9
      + (-1.5 / 31) * s36_10),
   ("36_22", i_TSSBM * s36_21),
   ("37_4", s37_4), ("37_10", s37_10), ("37_14", s37_14),
   ("37_15", s37_15), ("37_20", s37_20),
   ("37_12", (1 / 14) * s37_4 + (-1.5 / 31) * s37_10),
   ("37_22", i_TSSXI * s37_14 + i_TSSXS * s37_15 + i_TSSBM * s37_20),
   ("38_4", s38_4), ("38_10", s38_10), ("38_14", s38_14),
   ("38_15", s38_15), ("38_21", s38_21),
   ("38_12", (1 / 14) * s38_4 + (-1.5 / 31) * s38_10),
   ("38_22", i_TSSXI * s38_14 + i_TSSXS * s38_15 + i_TSSBM * s38_21),
   ("39_10", s39_10), ("39_23", s39_23), ("39_24", s39_24),
   ("39_12", (-1.5 / 31) * s39_10),
   ("39_22", 1.0 * s39_23 + 1.0 * s39_24),
   ("40_10", s40_10), ("40_23", s40_23), ("40_24", s40_24),
   ("40_12", (-1.5 / 31) * s40_10),
   ("40_22", 1.0 * s40_23 + 1.0 * s40_24)]

/-! ## Model lifecycle: `update`, `__init__`, `alter_kinetic_20C` -/

/-- `_set_params` (ASM2d_N2O.py lines 187-308): run the parameter-copy
writes against the current `_params` dict. -/
def set_params (s : ModelState) : ModelState :=
  { s with params := applyWrites s.params (paramWrites s.kinetics20C) }

/-- `_set_stoichs` (lines 310-629): run the stoichiometry writes against
the current `_stoichs` dict, reading the current `_params`. -/
def set_stoichs (s : ModelState) : ModelState :=
  { s with stoichs := applyWrites s.stoichs (stoichWrites s.params) }

/-- `asm_model.update` (asmbase.py lines 81-98). -/
def update (s : ModelState) (ww_temp DO : ℚ) : ModelState :=
  let s := { s with temperature := ww_temp }
  let s := { s with bulk_DO := DO }
  let s := { s with delta_t := s.temperature - 20.0 }
  set_stoichs (set_params s)

/-- `asm_model.alter_kinetic_20C` (asmbase.py lines 61-78).  The function
cannot raise: a rejected write prints an error message and returns `None`.
The `Bool` records whether the error message was printed. -/
def alter_kinetic_20C (s : ModelState) (name : String) (new_val : ℚ) :
    EM (ModelState × Bool) :=
  if new_val > 0 ∧ name ∈ dkeys s.kinetics20C then
    .ok ({ s with kinetics20C := dset s.kinetics20C name new_val }, false)
  else
    .ok (s, true)

/-- `ASM2d_N2O.__init__` (ASM2d_N2O.py lines 25-60, which runs
`asm_model.__init__` from asmbase.py lines 18-58 with its default
arguments first).  Note the `[1.0] * 52` Monod buffer (line 55). -/
def initState (ww_temp DO : ℚ) : ModelState :=
  let s0 : ModelState :=
    { temperature := 20, bulk_DO := 2, kinetics20C := [], params := [],
      stoichs := [], comps := [], delta_t := 0,
      KLa := 60 * 24 / (9 - 2), monods := [], rateRes := [] }
  let s1 := { s0 with kinetics20C := kineticsDefaults }
  let s2 := { s1 with temperature := ww_temp, bulk_DO := DO,
                      delta_t := ww_temp - 20 }
  let s3 := update s2 ww_temp DO
  { s3 with comps := List.replicate 24 0.0,
            monods := List.replicate 52 1.0,
            rateRes := List.replicate 40 0.0 }

/-! ## Rate expression evaluator
(`_reaction_rate`, ASM2d_N2O.py lines 631-753.)

`monodExprs` lists, in source order, the right-hand sides of the 54 Monod
assignments `self._monods[0] = …` … `self._monods[53] = …` (lines
643-705); each is a pure fallible expression over the state vector and the
parameter dict.  `rateExprs` lists the right-hand sides of the 40 rate
assignments `self._rate_res[0] = …` … `self._rate_res[39] = …` (lines
708-751); these read the Monod buffer through `mv`.  Position in the list
is the assigned index. -/

def monodExprs (tr : PyEnv) (p : Dict) (comps : List ℚ) : List (EM ℚ) :=
  let c := fun i => comps.getD i 0
  let pg := dgetD p
  [emonod (c 0) (pg "K_O2_H"),
   (do emonod (← ediv (c 14) (c 15)) (pg "K_X_H")),
   emonod (pg "K_O2_H") (c 0),
   emonod (c 8) (pg "K_NO3_H"),
   emonod (c 7) (pg "K_NO2_H"),
   emonod (pg "K_NO2_H") (c 7 + c 8),
   emonod (c 1) (pg "K_F"),
   emonod (c 1) (c 2),
   emonod (c 0) (pg "K_O2"),
   emonod (c 3) (pg "K_NH4"),
   emonod (c 9) (pg "K_P"),
   emonod (c 11) (pg "K_ALK"),
   emonod (c 2) (pg "K_A"),
   emonod (c 2) (c 1),
   emonod (pg "K_O2") (c 0),
   emonod (c 1) (pg "K_S3"),
   emonod (c 7) (pg "K_NO2_Den"),
   emonod (pg "K_OH3") (c 0),
   emonod (c 1) (pg "K_S4"),
   (do emonod (c 6) (pg "K_NO_Den" + (← ediv ((c 6) ^ 2) (pg "K_I4NO")))),
   emonod (pg "K_OH4") (c 0),
   emonod (c 1) (pg "K_S5"),
   emonod (c 5) (pg "K_N2O_Den"),
   emonod (pg "K_OH5") (c 0),
   emonod (c 2) (pg "K_S3"),
   emonod (c 2) (pg "K_S4"),
   emonod (c 2) (pg "K_S5"),
   emonod (pg "K_NO2") (c 7 + c 8),
   emonod (c 1) (pg "K_fe_H"),
   emonod (c 2) (pg "K_A_P"),
   emonod (c 11) (pg "K_ALK_P"),
   (do emonod (← ediv (c 17) (c 16)) (pg "K_PP_P")),
   emonod (c 0) (pg "K_O2_P"),
   emonod (c 9) (pg "K_P_P"),
   (do emonod (← ediv (c 18) (c 16)) (pg "K_PHA_P")),
   (do emonod (pg "K_MAX_P" - (← ediv (c 17) (c 16))) (pg "K_IPP_P")),
   emonod (c 8) (pg "K_NO3_P"),
   emonod (pg "K_O2_P") (c 0),
   emonod (c 0) (pg "K_O2_AOB1"),
   emonod (c 3) (pg "K_NH4_AOB"),
   emonod (c 0) (pg "K_O2_AOB2"),
   emonod (c 4) (pg "K_NH2OH_AOB"),
   emonod (c 9) (pg "K_P_AOB"),
   emonod (c 11) (pg "K_ALK_AOB"),
   emonod (c 6) (pg "K_NO_AOB_HAO"),
   emonod (c 6) (pg "K_NO_AOB_NN"),
   -- lines 690-695: temp = 20, pH = 7, Ka = exp(-2300/(273.15+temp)),
   -- S_HNO2 = (comps[7] / (Ka * 10**pH + 1)) * (47/14)
   (do emonod ((← ediv (c 7) (tr.exp (-2300 / (273.15 + 20)) * 10 ^ (7 : ℕ) + 1))
        * (47 / 14)) (pg "K_HNO2_AOB")),
   emonod (c 0) (pg "K_O2_NOB"),
   emonod (c 7) (pg "K_NO2_NOB"),
   emonod (c 9) (pg "K_P_NOB"),
   emonod (c 11) (pg "K_ALK_NOB"),
   emonod (c 11) (pg "K_ALK_PR"),
   -- lines 703-705: "Omitted monod terms earlier" — these two assignments
   -- target indices 52 and 53 of the 52-element buffer.
   emonod (c 8) (pg "K_NO3"),
   emonod (c 3) (10e-12 : ℚ)]

/-- The right-hand sides of the 40 rate assignments, one definition per
source line 708-751; `pg` reads `self._params`, `c` reads `comps`, `mv`
reads the `self._monods` buffer. -/
def rateRHS0 (pg : String → ℚ) (c : Nat → ℚ) (mv : Nat → EM ℚ) : EM ℚ :=
  do pure (pg "K_H" * (← mv 0) * (← mv 1) * c 15)

def rateRHS1 (pg : String → ℚ) (c : Nat → ℚ) (mv : Nat → EM ℚ) : EM ℚ :=
  do pure (pg "K_H" * pg "n_NO3_H" * (← mv 2) * (← mv 3) * (← mv 1) * c 15)

def rateRHS2 (pg : String → ℚ) (c : Nat → ℚ) (mv : Nat → EM ℚ) : EM ℚ :=
  do pure (pg "K_H" * pg "n_NO2_H" * (← mv 2) * (← mv 4) * (← mv 1) * c 15)

def rateRHS3 (pg : String → ℚ) (c : Nat → ℚ) (mv : Nat → EM ℚ) : EM ℚ :=
  do pure (pg "K_H" * pg "n_fe_H" * (← mv 2) * (← mv 5) * (← mv 1) * c 15)

def rateRHS4 (pg : String → ℚ) (c : Nat → ℚ) (mv : Nat → EM ℚ) : EM ℚ :=
  do pure (pg "mu_H" * (← mv 6) * (← mv 7) * (← mv 8) * (← mv 9)
      * (← mv 10) * (← mv 11) * c 15)

def rateRHS5 (pg : String → ℚ) (c : Nat → ℚ) (mv : Nat → EM ℚ) : EM ℚ :=
  do pure (pg "mu_H" * (← mv 12) * (← mv 13) * (← mv 8) * (← mv 9)
      * (← mv 10) * (← mv 11) * c 15)

def rateRHS6 (pg : String → ℚ) (c : Nat → ℚ) (mv : Nat → EM ℚ) : EM ℚ :=
  do pure (pg "mu_H" * pg "n_NO3_D" * (← mv 6) * (← mv 7) * (← mv 14)
      * (← mv 52) * (← mv 9) * (← mv 10) * (← mv 11) * c 15)

def rateRHS7 (pg : String → ℚ) (c : Nat → ℚ) (mv : Nat → EM ℚ) : EM ℚ :=
  do pure (pg "mu_H" * pg "n_G3" * (← mv 15) * (← mv 7) * (← mv 16)
      * (← mv 17) * (← mv 9) * (← mv 10) * (← mv 11) * c 15)

def rateRHS8 (pg : String → ℚ) (c : Nat → ℚ) (mv : Nat → EM ℚ) : EM ℚ :=
  do pure (pg "mu_H" * pg "n_G4" * (← mv 18) * (← mv 7) * (← mv 19)
      * (← mv 20) * (← mv 9) * (← mv 10) * (← mv 11) * c 15)

def rateRHS9 (pg : String → ℚ) (c : Nat → ℚ) (mv : Nat → EM ℚ) : EM ℚ :=
  do pure (pg "mu_H" * pg "n_G5" * (← mv 21) * (← mv 7) * (← mv 22)
      * (← mv 23) * (← mv 9) * (← mv 10) * (← mv 11) * c 15)

def rateRHS10 (pg : String → ℚ) (c : Nat → ℚ) (mv : Nat → EM ℚ) : EM ℚ :=
  do pure (pg "mu_H" * pg "n_NO3_D" * (← mv 12) * (← mv 13) * (← mv 14)
      * (← mv 52) * (← mv 9) * (← mv 10) * (← mv 11) * c 15)

def rateRHS11 (pg : String → ℚ) (c : Nat → ℚ) (mv : Nat → EM ℚ) : EM ℚ :=
  do pure (pg "mu_H" * pg "n_G3" * (← mv 24) * (← mv 13) * (← mv 16)
      * (← mv 17) * (← mv 9) * (← mv 10) * (← mv 11) * c 15)

def rateRHS12 (pg : String → ℚ) (c : Nat → ℚ) (mv : Nat → EM ℚ) : EM ℚ :=
  do pure (pg "mu_H" * pg "n_G4" * (← mv 25) * (← mv 13) * (← mv 19)
      * (← mv 20) * (← mv 9) * (← mv 10) * (← mv 11) * c 15)

def rateRHS13 (pg : String → ℚ) (c : Nat → ℚ) (mv : Nat → EM ℚ) : EM ℚ :=
  do pure (pg "mu_H" * pg "n_G5" * (← mv 26) * (← mv 13) * (← mv 22)
      * (← mv 23) * (← mv 9) * (← mv 10) * (← mv 11) * c 15)

/-- Line 722: `… * self._monod[28] * …` subscripts the bound method
`_monod` — a `TypeError`, raised after the reads of `monods[14]` and
`monods[27]` succeed. -/
def rateRHS14 (mv : Nat → EM ℚ) : EM ℚ :=
  do let _ ← mv 14
     let _ ← mv 27
     (.error .typeError : EM ℚ)

def rateRHS15 (pg : String → ℚ) (c : Nat → ℚ) : EM ℚ :=
  pure (pg "b_H" * c 15)

def rateRHS16 (pg : String → ℚ) (c : Nat → ℚ) (mv : Nat → EM ℚ) : EM ℚ :=
  do pure (pg "q_PHA" * (← mv 29) * (← mv 30) * (← mv 31) * c 16)

def rateRHS17 (pg : String → ℚ) (c : Nat → ℚ) (mv : Nat → EM ℚ) : EM ℚ :=
  do pure (pg "q_PP" * (← mv 32) * (← mv 33) * (← mv 30) * (← mv 34)
      * (← mv 35) * c 16)

def rateRHS18 (pg : String → ℚ) (c : Nat → ℚ) (mv : Nat → EM ℚ) : EM ℚ :=
  do pure (pg "q_PP" * pg "n_NO3_P" * (← mv 36) * (← mv 37) * (← mv 33)
      * (← mv 30) * (← mv 34) * (← mv 35) * c 16)

def rateRHS19 (pg : String → ℚ) (c : Nat → ℚ) (mv : Nat → EM ℚ) : EM ℚ :=
  do pure (pg "q_PP" * pg "n_G3" * (← mv 16) * (← mv 17) * (← mv 33)
      * (← mv 30) * (← mv 34) * (← mv 35) * c 16)

def rateRHS20 (pg : String → ℚ) (c : Nat → ℚ) (mv : Nat → EM ℚ) : EM ℚ :=
  do pure (pg "q_PP" * pg "n_G4" * (← mv 19) * (← mv 20) * (← mv 33)
      * (← mv 30) * (← mv 34) * (← mv 35) * c 16)

def rateRHS21 (pg : String → ℚ) (c : Nat → ℚ) (mv : Nat → EM ℚ) : EM ℚ :=
  do pure (pg "q_PP" * pg "n_G5" * (← mv 22) * (← mv 23) * (← mv 33)
      * (← mv 30) * (← mv 34) * (← mv 35) * c 16)

def rateRHS22 (pg : String → ℚ) (c : Nat → ℚ) (mv : Nat → EM ℚ) : EM ℚ :=
  do pure (pg "mu_PAO" * (← mv 32) * (← mv 33) * (← mv 9) * (← mv 30)
      * (← mv 34) * c 16)

def rateRHS23 (pg : String → ℚ) (c : Nat → ℚ) (mv : Nat → EM ℚ) : EM ℚ :=
  do pure (pg "mu_PAO" * pg "n_NO3_P" * (← mv 36) * (← mv 37) * (← mv 33)
      * (← mv 9) * (← mv 30) * (← mv 34) * c 16)

def rateRHS24 (pg : String → ℚ) (c : Nat → ℚ) (mv : Nat → EM ℚ) : EM ℚ :=
  do pure (pg "mu_PAO" * pg "n_G3" * (← mv 16) * (← mv 17) * (← mv 33)
      * (← mv 9) * (← mv 30) * (← mv 34) * c 16)

def rateRHS25 (pg : String → ℚ) (c : Nat → ℚ) (mv : Nat → EM ℚ) : EM ℚ :=
  do pure (pg "mu_PAO" * pg "n_G4" * (← mv 19) * (← mv 20) * (← mv 33)
      * (← mv 9) * (← mv 30) * (← mv 34) * c 16)

def rateRHS26 (pg : String → ℚ) (c : Nat → ℚ) (mv : Nat → EM ℚ) : EM ℚ :=
  do pure (pg "mu_PAO" * pg "n_G5" * (← mv 22) * (← mv 23) * (← mv 33)
      * (← mv 9) * (← mv 30) * (← mv 34) * c 16)

def rateRHS27 (pg : String → ℚ) (c : Nat → ℚ) (mv : Nat → EM ℚ) : EM ℚ :=
  do pure (pg "b_PAO" * (← mv 30) * c 16)

def rateRHS28 (pg : String → ℚ) (c : Nat → ℚ) (mv : Nat → EM ℚ) : EM ℚ :=
  do pure (pg "b_PP" * (← mv 30) * c 17)

def rateRHS29 (pg : String → ℚ) (c : Nat → ℚ) (mv : Nat → EM ℚ) : EM ℚ :=
  do pure (pg "b_PHA" * (← mv 30) * c 18)

def rateRHS30 (pg : String → ℚ) (c : Nat → ℚ) (mv : Nat → EM ℚ) : EM ℚ :=
  do pure (pg "q_AOB_AMO" * (← mv 38) * (← mv 39) * c 19)

def rateRHS31 (pg : String → ℚ) (c : Nat → ℚ) (mv : Nat → EM ℚ) : EM ℚ :=
  do pure (pg "mu_AOB_HAO" * (← mv 40) * (← mv 41) * (← mv 53) * (← mv 42)
      * (← mv 43) * c 19)

def rateRHS32 (pg : String → ℚ) (c : Nat → ℚ) (mv : Nat → EM ℚ) : EM ℚ :=
  do pure (pg "q_AOB_HAO" * (← mv 40) * (← mv 44) * c 19)

def rateRHS33 (pg : String → ℚ) (c : Nat → ℚ) (mv : Nat → EM ℚ) : EM ℚ :=
  do pure (pg "q_AOB_N2O_NN" * (← mv 41) * (← mv 45) * c 19)

/-- Lines 744-745: `fSO2` is computed first (with its inner divisions and
the float square root `** (1 / 2)`), then rate 34 reads `monods[41]` and
`monods[46]`. -/
def rateRHS34 (tr : PyEnv) (pg : String → ℚ) (c : Nat → ℚ)
    (mv : Nat → EM ℚ) : EM ℚ :=
  do let q1 ← ediv (pg "K_O2_AOB_ND") (pg "K_I_O2_AOB")
     let q2 ← ediv ((c 0) ^ 2) (pg "K_I_O2_AOB")
     let fSO2 ← ediv (c 0)
       (pg "K_O2_AOB_ND" + (1.0 - 2.0 * tr.sqrtq q1) * c 0 + q2)
     pure (pg "q_AOB_N2O_ND" * (← mv 41) * (← mv 46) * fSO2 * c 19)

def rateRHS35 (pg : String → ℚ) (c : Nat → ℚ) (mv : Nat → EM ℚ) : EM ℚ :=
  do pure (pg "mu_NOB" * (← mv 47) * (← mv 48) * (← mv 49) * (← mv 50)
      * c 20)

def rateRHS36 (pg : String → ℚ) (c : Nat → ℚ) : EM ℚ :=
  pure (pg "b_AOB" * c 19)

def rateRHS37 (pg : String → ℚ) (c : Nat → ℚ) : EM ℚ :=
  pure (pg "b_NOB" * c 20)

def rateRHS38 (pg : String → ℚ) (c : Nat → ℚ) : EM ℚ :=
  pure (pg "k_PRE" * c 9 * c 22)

def rateRHS39 (pg : String → ℚ) (c : Nat → ℚ) (mv : Nat → EM ℚ) : EM ℚ :=
  do pure (pg "k_RED" * (← mv 51) * c 23)

def rateExprs (tr : PyEnv) (p : Dict) (comps : List ℚ) (mv : Nat → EM ℚ) :
    List (EM ℚ) :=
  let c := fun i => comps.getD i 0
  let pg := dgetD p
  [rateRHS0 pg c mv, rateRHS1 pg c mv, rateRHS2 pg c mv, rateRHS3 pg c mv,
   rateRHS4 pg c mv, rateRHS5 pg c mv, rateRHS6 pg c mv, rateRHS7 pg c mv,
   rateRHS8 pg c mv, rateRHS9 pg c mv, rateRHS10 pg c mv, rateRHS11 pg c mv,
   rateRHS12 pg c mv, rateRHS13 pg c mv, rateRHS14 mv, rateRHS15 pg c,
   rateRHS16 pg c mv, rateRHS17 pg c mv, rateRHS18 pg c mv,
   rateRHS19 pg c mv, rateRHS20 pg c mv, rateRHS21 pg c mv,
   rateRHS22 pg c mv, rateRHS23 pg c mv, rateRHS24 pg c mv,
   rateRHS25 pg c mv, rateRHS26 pg c mv, rateRHS27 pg c mv,
   rateRHS28 pg c mv, rateRHS29 pg c mv, rateRHS30 pg c mv,
   rateRHS31 pg c mv, rateRHS32 pg c mv, rateRHS33 pg c mv,
   rateRHS34 tr pg c mv, rateRHS35 pg c mv, rateRHS36 pg c,
   rateRHS37 pg c, rateRHS38 pg c, rateRHS39 pg c mv]

/-- `_reaction_rate` (ASM2d_N2O.py lines 631-753): assign the 54 Monod
terms into `self._monods`, then the 40 rates into `self._rate_res`
(reading the Monod buffer, which the rate section never writes), then
return `self._rate_res`. -/
def reaction_rate (tr : PyEnv) (comps : List ℚ) : PyM (List ℚ) :=
  reads ModelState.params >>= fun p =>
  writeSeq setMonod 0 (monodExprs tr p comps) >>= fun _ =>
  reads ModelState.monods >>= fun ms =>
  writeSeq setRate 0 (rateExprs tr p comps (fun i => eidx ms i)) >>= fun _ =>
  reads ModelState.rateRes

/-! ## Mass balance aggregator
(`_rate0_S_O2` … `_rate23_X_MeP`, ASM2d_N2O.py lines 757-1216, and
`_dCdt`, lines 1218-1322.)

`g` reads `self._stoichs`, `rr` reads `self._rate_res`; both dicts/buffers
are fully populated in every reachable state, so the total reads are
faithful. -/

def rate0_S_O2 (st : Dict) (rr : Nat → ℚ) : ℚ :=
  let g := dgetD st
  g "5_1" * rr 4 + g "6_1" * rr 5 + g "18_1" * rr 17 + g "23_1" * rr 22
    + g "31_1" * rr 30 + g "32_1" * rr 31 + g "33_1" * rr 32
    + g "36_1" * rr 35

def rate1_S_F (st : Dict) (rr : Nat → ℚ) : ℚ :=
  let g := dgetD st
  g "1_2" * rr 0 + g "2_2" * rr 1 + g "3_2" * rr 2 + g "4_2" * rr 3
    + g "5_2" * rr 4 + g "7_2" * rr 6 + g "8_2" * rr 7 + g "9_2" * rr 8
    + g "10_2" * rr 9 + g "15_2" * rr 14

def rate2_S_A (st : Dict) (rr : Nat → ℚ) : ℚ :=
  let g := dgetD st
  g "6_3" * rr 5 + g "11_3" * rr 10 + g "12_3" * rr 11 + g "13_3" * rr 12
    + g "14_3" * rr 13 + g "15_3" * rr 14 + g "17_3" * rr 16
    + g "30_3" * rr 29

def rate3_S_NH4 (st : Dict) (rr : Nat → ℚ) : ℚ :=
  let g := dgetD st
  g "1_4" * rr 0 + g "2_4" * rr 1 + g "3_4" * rr 2 + g "4_4" * rr 3
    + g "5_4" * rr 4 + g "6_4" * rr 5 + g "7_4" * rr 6 + g "8_4" * rr 7
    + g "9_4" * rr 8 + g "10_4" * rr 9 + g "11_4" * rr 10 + g "12_4" * rr 11
    + g "13_4" * rr 12 + g "14_4" * rr 13 + g "15_4" * rr 14
    + g "16_4" * rr 15 + g "23_4" * rr 22 + g "24_4" * rr 23
    + g "25_4" * rr 24 + g "26_4" * rr 25 + g "27_4" * rr 26
    + g "28_4" * rr 27 + g "31_4" * rr 30 + g "32_4" * rr 31
    + g "36_4" * rr 35 + g "37_4" * rr 36 + g "38_4" * rr 37

def rate4_S_NH2OH (st : Dict) (rr : Nat → ℚ) : ℚ :=
  let g := dgetD st
  g "31_5" * rr 30 + g "32_5" * rr 31 + g "34_5" * rr 33 + g "35_5" * rr 34

def rate5_S_N2O (st : Dict) (rr : Nat → ℚ) : ℚ :=
  let g := dgetD st
  g "9_6" * rr 8 + g "10_6" * rr 9 + g "13_6" * rr 12 + g "14_6" * rr 13
    + g "21_6" * rr 20 + g "22_6" * rr 21 + g "26_6" * rr 25
    + g "27_6" * rr 26 + g "34_6" * rr 33 + g "35_6" * rr 34

def rate6_S_NO (st : Dict) (rr : Nat → ℚ) : ℚ :=
  let g := dgetD st
  g "8_7" * rr 7 + g "9_7" * rr 8 + g "12_7" * rr 11 + g "13_7" * rr 12
    + g "20_7" * rr 19 + g "21_7" * rr 20 + g "25_7" * rr 24
    + g "26_7" * rr 25 + g "32_7" * rr 31 + g "33_7" * rr 32
    + g "34_7" * rr 33

def rate7_S_NO2 (st : Dict) (rr : Nat → ℚ) : ℚ :=
  let g := dgetD st
  g "7_8" * rr 6 + g "8_8" * rr 7 + g "11_8" * rr 10 + g "12_8" * rr 11
    + g "19_8" * rr 18 + g "20_8" * rr 19 + g "24_8" * rr 23
    + g "25_8" * rr 24 + g "33_8" * rr 32 + g "34_8" * rr 33
    + g "35_8" * rr 34 + g "36_8" * rr 35

def rate8_S_NO3 (st : Dict) (rr : Nat → ℚ) : ℚ :=
  let g := dgetD st
  g "7_9" * rr 6 + g "11_9" * rr 10 + g "19_9" * rr 18 + g "24_9" * rr 23
    + g "36_9" * rr 35

def rate9_S_PO4 (st : Dict) (rr : Nat → ℚ) : ℚ :=
  let g := dgetD st
  g "1_10" * rr 0 + g "2_10" * rr 1 + g "3_10" * rr 2 + g "4_10" * rr 3
    + g "5_10" * rr 4 + g "6_10" * rr 5 + g "7_10" * rr 6 + g "8_10" * rr 7
    + g "9_10" * rr 8 + g "10_10" * rr 9 + g "11_10" * rr 10
    + g "12_10" * rr 11 + g "13_10" * rr 12 + g "14_10" * rr 13
    + g "15_10" * rr 14 + g "16_10" * rr 15 + g "17_10" * rr 16
    + g "18_10" * rr 17 + g "19_10" * rr 18 + g "20_10" * rr 19
    + g "21_10" * rr 20 + g "22_10" * rr 21 + g "23_10" * rr 22
    + g "24_10" * rr 23 + g "25_10" * rr 24 + g "26_10" * rr 25
    + g "27_10" * rr 26 + g "28_10" * rr 27 + g "29_10" * rr 28
    + g "32_10" * rr 31 + g "36_10" * rr 35 + g "37_10" * rr 36
    + g "38_10" * rr 37 + g "39_10" * rr 38 + g "40_10" * rr 39

def rate10_S_I (st : Dict) (rr : Nat → ℚ) : ℚ :=
  let g := dgetD st
  g "1_11" * rr 0 + g "2_11" * rr 1 + g "3_11" * rr 2 + g "4_11" * rr 3

def rate11_S_ALK (st : Dict) (rr : Nat → ℚ) : ℚ :=
  let g := dgetD st
  g "1_12" * rr 0 + g "2_12" * rr 1 + g "3_12" * rr 2 + g "4_12" * rr 3
    + g "5_12" * rr 4 + g "6_12" * rr 5 + g "7_12" * rr 6 + g "8_12" * rr 7
    + g "9_12" * rr 8 + g "10_12" * rr 9 + g "11_12" * rr 10
    + g "12_12" * rr 11 + g "13_12" * rr 12 + g "14_12" * rr 13
    + g "15_12" * rr 14 + g "16_12" * rr 15 + g "17_12" * rr 16
    + g "18_12" * rr 17 + g "19_12" * rr 18 + g "20_12" * rr 19
    + g "21_12" * rr 20 + g "22_12" * rr 21 + g "23_12" * rr 22
    + g "24_12" * rr 23 + g "25_12" * rr 24 + g "26_12" * rr 25
    + g "27_12" * rr 26 + g "28_12" * rr 27 + g "29_12" * rr 28
    + g "30_12" * rr 29 + g "31_12" * rr 30 + g "32_12" * rr 31
    + g "33_12" * rr 32 + g "34_12" * rr 33 + g "35_12" * rr 34
    + g "36_12" * rr 35 + g "37_12" * rr 36 + g "38_12" * rr 37
    + g "39_12" * rr 38 + g "40_12" * rr 39

def rate12_S_N2 (st : Dict) (rr : Nat → ℚ) : ℚ :=
  let g := dgetD st
  g "10_13" * rr 9 + g "14_13" * rr 13 + g "22_13" * rr 21
    + g "27_13" * rr 26

def rate13_X_I (st : Dict) (rr : Nat → ℚ) : ℚ :=
  let g := dgetD st
  g "16_14" * rr 15 + g "28_14" * rr 27 + g "37_14" * rr 36
    + g "38_14" * rr 37

def rate14_X_S (st : Dict) (rr : Nat → ℚ) : ℚ :=
  let g := dgetD st
  g "1_15" * rr 0 + g "2_15" * rr 1 + g "3_15" * rr 2 + g "4_15" * rr 3
    + g "16_15" * rr 15 + g "28_15" * rr 27 + g "37_15" * rr 36
    + g "38_15" * rr 37

def rate15_X_H (st : Dict) (rr : Nat → ℚ) : ℚ :=
  let g := dgetD st
  g "5_16" * rr 4 + g "6_16" * rr 5 + g "7_16" * rr 6 + g "8_16" * rr 7
    + g "9_16" * rr 8 + g "10_16" * rr 9 + g "11_16" * rr 10
    + g "12_16" * rr 11 + g "13_16" * rr 12 + g "14_16" * rr 13
    + g "16_16" * rr 15

def rate16_X_PAO (st : Dict) (rr : Nat → ℚ) : ℚ :=
  let g := dgetD st
  g "23_17" * rr 22 + g "24_17" * rr 23 + g "25_17" * rr 24
    + g "26_17" * rr 25 + g "27_17" * rr 26 + g "28_17" * rr 27

def rate17_X_PP (st : Dict) (rr : Nat → ℚ) : ℚ :=
  let g := dgetD st
  g "17_18" * rr 16 + g "18_18" * rr 17 + g "19_18" * rr 18
    + g "20_18" * rr 19 + g "21_18" * rr 20 + g "22_18" * rr 21
    + g "29_18" * rr 28

def rate18_X_PHA (st : Dict) (rr : Nat → ℚ) : ℚ :=
  let g := dgetD st
  g "17_19" * rr 16 + g "18_19" * rr 17 + g "19_19" * rr 18
    + g "20_19" * rr 19 + g "21_19" * rr 20 + g "22_19" * rr 21
    + g "23_19" * rr 22 + g "24_19" * rr 23 + g "25_19" * rr 24
    + g "26_19" * rr 25 + g "27_19" * rr 26 + g "30_19" * rr 29

def rate19_X_AOB (st : Dict) (rr : Nat → ℚ) : ℚ :=
  let g := dgetD st
  g "32_20" * rr 31 + g "37_20" * rr 36

def rate20_X_NOB (st : Dict) (rr : Nat → ℚ) : ℚ :=
  let g := dgetD st
  g "36_21" * rr 35 + g "38_21" * rr 37

def rate21_X_TSS (st : Dict) (rr : Nat → ℚ) : ℚ :=
  let g := dgetD st
  g "1_22" * rr 0 + g "2_22" * rr 1 + g "3_22" * rr 2 + g "4_22" * rr 3
    + g "5_22" * rr 4 + g "6_22" * rr 5 + g "7_22" * rr 6 + g "8_22" * rr 7
    + g "9_22" * rr 8 + g "10_22" * rr 9 + g "11_22" * rr 10
    + g "12_22" * rr 11 + g "13_22" * rr 12 + g "14_22" * rr 13
    + g "16_22" * rr 15 + g "17_22" * rr 16 + g "18_22" * rr 17
    + g "19_22" * rr 18 + g "20_22" * rr 19 + g "21_22" * rr 20
    + g "22_22" * rr 21 + g "23_22" * rr 22 + g "24_22" * rr 23
    + g "25_22" * rr 24 + g "26_22" * rr 25 + g "27_22" * rr 26
    + g "28_22" * rr 27 + g "29_22" * rr 28 + g "30_22" * rr 29
    + g "32_22" * rr 31 + g "36_22" * rr 35 + g "37_22" * rr 36
    + g "38_22" * rr 37 + g "39_22" * rr 38 + g "40_22" * rr 39

def rate22_X_MeOH (st : Dict) (rr : Nat → ℚ) : ℚ :=
  let g := dgetD st
  g "39_23" * rr 38 + g "40_23" * rr 39

def rate23_X_MeP (st : Dict) (rr : Nat → ℚ) : ℚ :=
  let g := dgetD st
  g "39_24" * rr 38 + g "40_24" * rr 39

/-- The result assembly of `_dCdt` (lines 1243-1322): everything after
the `self._reaction_rate(mo_comps)` call, as a function of the state
reached by that call.  `_HRT = vol / flow` raises `ZeroDivisionError`
when `flow == 0`.  All 24 per-component divisions `(in - mo) / _HRT`
share the denominator `_HRT`, and Python raises `ZeroDivisionError` at
the first one executed — i.e. exactly when `_HRT == 0` — so the division
guards are factored into the single second check here; past the guards,
every entry is the pure value of lines 1246-1320.  Component 0 is `0.0`
when `fix_DO` is set or the configured bulk DO is exactly zero,
otherwise it adds the gas-transfer term
`KLa * (DO_sat_T - mo_comps[0])`. -/
def dCdtAssemble (s : ModelState) (mo_comps : List ℚ) (vol flow : ℚ)
    (in_comps : List ℚ) (fix_DO : Bool) (DO_sat_T : ℚ) : EM (List ℚ) :=
  let mo := fun i => mo_comps.getD i 0
  let inc := fun i => in_comps.getD i 0
  let st := s.stoichs
  let rr := fun i => s.rateRes.getD i 0
  if flow = 0 then .error .zeroDivisionError
  else
    let HRT := vol / flow
    if HRT = 0 then .error .zeroDivisionError
    else
      .ok [(if fix_DO ∨ s.bulk_DO = 0 then 0.0
            else (inc 0 - mo 0) / HRT + s.KLa * (DO_sat_T - mo 0)
              + rate0_S_O2 st rr),
           (inc 1 - mo 1) / HRT + rate1_S_F st rr,
           (inc 2 - mo 2) / HRT + rate2_S_A st rr,
           (inc 3 - mo 3) / HRT + rate3_S_NH4 st rr,
           (inc 4 - mo 4) / HRT + rate4_S_NH2OH st rr,
           (inc 5 - mo 5) / HRT + rate5_S_N2O st rr,
           (inc 6 - mo 6) / HRT + rate6_S_NO st rr,
           (inc 7 - mo 7) / HRT + rate7_S_NO2 st rr,
           (inc 8 - mo 8) / HRT + rate8_S_NO3 st rr,
           (inc 9 - mo 9) / HRT + rate9_S_PO4 st rr,
           (inc 10 - mo 10) / HRT + rate10_S_I st rr,
           (inc 11 - mo 11) / HRT + rate11_S_ALK st rr,
           (inc 12 - mo 12) / HRT + rate12_S_N2 st rr,
           (inc 13 - mo 13) / HRT + rate13_X_I st rr,
           (inc 14 - mo 14) / HRT + rate14_X_S st rr,
           (inc 15 - mo 15) / HRT + rate15_X_H st rr,
           (inc 16 - mo 16) / HRT + rate16_X_PAO st rr,
           (inc 17 - mo 17) / HRT + rate17_X_PP st rr,
           (inc 18 - mo 18) / HRT + rate18_X_PHA st rr,
           (inc 19 - mo 19) / HRT + rate19_X_AOB st rr,
           (inc 20 - mo 20) / HRT + rate20_X_NOB st rr,
           (inc 21 - mo 21) / HRT + rate21_X_TSS st rr,
           (inc 22 - mo 22) / HRT + rate22_X_MeOH st rr,
           (inc 23 - mo 23) / HRT + rate23_X_MeP st rr]

/-- `ASM2d_N2O._dCdt` (lines 1218-1322): first `_reaction_rate`, then the
hydraulic/mass-balance assembly.  The time argument `t` is part of the
integrator callback signature and unused. -/
def dCdt (tr : PyEnv) (_t : ℚ) (mo_comps : List ℚ) (vol flow : ℚ)
    (in_comps : List ℚ) (fix_DO : Bool) (DO_sat_T : ℚ) : PyM (List ℚ) :=
  reaction_rate tr mo_comps >>= fun _ => fun s =>
    (s, dCdtAssemble s mo_comps vol flow in_comps fix_DO DO_sat_T)

/-- Modelled from the spec (section 4.3, HNO2 equilibrium): the
un-ionized nitrite concentration
`HNO2 = (NO2 / (Ka * 10 ^ pH + 1)) * (47 / 14)` with
`Ka = exp(-2300 / (273.15 + T))` at the fixed reference temperature
`T = 20` and `pH = 7`.  Written from the spec words, to be compared with
the code transcription in `monodExprs` item 46. -/
def S_HNO2_spec (tr : PyEnv) (NO2 : ℚ) : ℚ :=
  (NO2 / (tr.exp (-2300 / (273.15 + 20)) * 10 ^ (7 : ℕ) + 1)) * (47 / 14)

/-! ## Concrete instances used by witnesses and counterexamples -/

/-- A trivial transcendental environment (any one will do: the statements
quantify over `PyEnv`, and the concrete facts below do not depend on the
values of `exp`/`sqrt`). -/
def tr0 : PyEnv := ⟨fun _ => 0, fun _ => 0⟩

/-- A benign state vector: 24 ones (non-negative, nonzero biomass). -/
def ones24 : List ℚ := List.replicate 24 1

/-- A benign influent vector. -/
def zeros24 : List ℚ := List.replicate 24 0

/-- The fully initialized model at the default 20 °C and DO = 2. -/
def m0 : ModelState := initState 20 2

/-- A non-negative state vector with `X_PAO = 1` (index 16) and
`X_PP = 0.35` (index 17), so `K_MAX_P - X_PP / X_PAO = -0.01` and the
storage-inhibition Monod term `monods[35]` is `-0.01 / 0.01 = -1`. -/
def compsNegPP : List ℚ :=
  [1, 1, 1, 1, 1, 1, 1, 1, 1, 1, 1, 1, 1, 1, 1, 1, 1, 0.35, 1, 1, 1, 1, 1, 1]

/-- A non-negative state vector with `X_PP = 0` (index 17), satisfying the
storage-ratio side condition `X_PP / X_PAO ≤ K_MAX_P`. -/
def compsOkPP : List ℚ :=
  [1, 1, 1, 1, 1, 1, 1, 1, 1, 1, 1, 1, 1, 1, 1, 1, 1, 0, 1, 1, 1, 1, 1, 1]

/-- The Monod buffer value that the rate expressions read at index `i`,
resolved to the expression assigned at that index by lines 643-705 (the
rate section never writes the Monod buffer, so under a large-enough
buffer the read at `i` returns exactly the value computed by Monod
assignment `i`). -/
def monodAt (tr : PyEnv) (p : Dict) (comps : List ℚ) (i : Nat) : EM ℚ :=
  (monodExprs tr p comps).getD i (.error .indexError)

/-- The 40 process-rate expressions of lines 708-751 with the Monod-buffer
reads resolved by `monodAt`: the rate values `_reaction_rate` is written
to produce. -/
def ratesIdeal (tr : PyEnv) (p : Dict) (comps : List ℚ) : List (EM ℚ) :=
  rateExprs tr p comps (monodAt tr p comps)

/-- Two states agree on everything except the two scratch buffers
(`_monods`, `_rate_res`): the configuration, parameter and stoichiometry
dicts and the stored state vector are untouched. -/
def agreesExceptBuffers (s s' : ModelState) : Prop :=
  s'.temperature = s.temperature ∧ s'.bulk_DO = s.bulk_DO ∧
  s'.kinetics20C = s.kinetics20C ∧ s'.params = s.params ∧
  s'.stoichs = s.stoichs ∧ s'.comps = s.comps ∧ s'.delta_t = s.delta_t ∧
  s'.KLa = s.KLa

/-! # Theorems

## Dictionary lemmas -/

theorem applyWrites_nil (d : Dict) : applyWrites d [] = d := rfl

theorem applyWrites_cons (d : Dict) (k : String) (v : ℚ)
    (t : List (String × ℚ)) :
    applyWrites d ((k, v) :: t) = applyWrites (dset d k v) t := rfl

theorem dget_dset_self (d : Dict) (k : String) (v : ℚ) :
    dget (dset d k v) k = some v := by
  induction d with
  | nil => simp [dset, dget]
  | cons kv t ih =>
    obtain ⟨k', v'⟩ := kv
    by_cases h : k' = k <;> simp [dset, dget, h, ih]

theorem dget_dset_ne (d : Dict) (k k' : String) (v : ℚ) (h : k' ≠ k) :
    dget (dset d k' v) k = dget d k := by
  induction d with
  | nil => simp [dset, dget, h]
  | cons kv t ih =>
    obtain ⟨k0, v0⟩ := kv
    by_cases h0 : k0 = k' <;> by_cases h1 : k0 = k <;>
      simp_all [dset, dget]

theorem dset_eq_of_dget (d : Dict) (k : String) (v : ℚ)
    (h : dget d k = some v) : dset d k v = d := by
  induction d with
  | nil => simp [dget] at h
  | cons kv t ih =>
    obtain ⟨k0, v0⟩ := kv
    by_cases h0 : k0 = k
    · subst h0
      simp [dget] at h
      simp [dset, h]
    · simp [dget, h0] at h
      simp [dset, h0, ih h]

theorem dget_applyWrites_not_mem (ws : List (String × ℚ)) :
    ∀ (d : Dict) (k : String), k ∉ ws.map Prod.fst →
      dget (applyWrites d ws) k = dget d k := by
  induction ws with
  | nil => intro d k _; rfl
  | cons kv t ih =>
    intro d k hk
    obtain ⟨k0, v0⟩ := kv
    simp only [List.map_cons, List.mem_cons, not_or] at hk
    rw [applyWrites_cons, ih _ _ hk.2, dget_dset_ne _ _ _ _ (Ne.symm hk.1)]

theorem dget_applyWrites_mem (ws : List (String × ℚ)) :
    ∀ (d : Dict) (k : String) (v : ℚ), (ws.map Prod.fst).Nodup →
      (k, v) ∈ ws → dget (applyWrites d ws) k = some v := by
  induction ws with
  | nil => intro d k v _ h; simp at h
  | cons kv t ih =>
    intro d k v hnd hm
    obtain ⟨k0, v0⟩ := kv
    simp only [List.map_cons, List.nodup_cons] at hnd
    rcases List.mem_cons.mp hm with heq | ht
    · obtain ⟨rfl, rfl⟩ := Prod.mk.injEq .. ▸ heq
      rw [applyWrites_cons,
        dget_applyWrites_not_mem t _ _ hnd.1, dget_dset_self]
    · exact applyWrites_cons .. ▸ ih _ _ _ hnd.2 ht

theorem applyWrites_idem (ws : List (String × ℚ)) :
    ∀ d : Dict, (ws.map Prod.fst).Nodup →
      applyWrites (applyWrites d ws) ws = applyWrites d ws := by
  induction ws with
  | nil => intro d _; rfl
  | cons kv t ih =>
    intro d hnd
    obtain ⟨k, v⟩ := kv
    simp only [List.map_cons, List.nodup_cons] at hnd
    rw [applyWrites_cons, applyWrites_cons,
      dset_eq_of_dget _ _ _
        (by rw [dget_applyWrites_not_mem t _ _ hnd.1, dget_dset_self]),
      ih _ hnd.2]

theorem paramWrites_keys (kin : Dict) :
    (paramWrites kin).map Prod.fst = paramKeys := rfl

theorem paramKeys_nodup : paramKeys.Nodup := by decide

theorem stoichWrites_keys (p : Dict) :
    (stoichWrites p).map Prod.fst = (stoichWrites []).map Prod.fst := rfl

theorem stoichWrites_keys_nodup (p : Dict) :
    ((stoichWrites p).map Prod.fst).Nodup := by
  rw [stoichWrites_keys]; decide

/-! ## C9: idempotence of `update` -/

/-- C9: calling `update(T, DO)` twice in succession with identical
arguments yields bit-identical working-parameter and stoichiometry
dictionaries after each of the two calls: the second call changes neither
snapshot (`get_params` / `get_stoichs` return copies of exactly these
dicts). -/
theorem c9_update_idempotent (s : ModelState) (T DO : ℚ) :
    (update (update s T DO) T DO).params = (update s T DO).params ∧
    (update (update s T DO) T DO).stoichs = (update s T DO).stoichs := by
  have hnodp : ∀ kin : Dict, ((paramWrites kin).map Prod.fst).Nodup := by
    intro kin; rw [paramWrites_keys]; exact paramKeys_nodup
  have hk : ∀ (u : ModelState) (a b : ℚ),
      (update u a b).kinetics20C = u.kinetics20C := by
    intro u a b; simp [update, set_params, set_stoichs]
  have hp : ∀ (u : ModelState) (a b : ℚ),
      (update u a b).params
        = applyWrites u.params (paramWrites u.kinetics20C) := by
    intro u a b; simp [update, set_params, set_stoichs]
  have hs : ∀ (u : ModelState) (a b : ℚ),
      (update u a b).stoichs = applyWrites u.stoichs
        (stoichWrites (applyWrites u.params (paramWrites u.kinetics20C))) := by
    intro u a b; simp [update, set_params, set_stoichs]
  have hP1 : applyWrites (update s T DO).params
      (paramWrites (update s T DO).kinetics20C) = (update s T DO).params := by
    rw [hk, hp s, applyWrites_idem _ _ (hnodp _)]
  have hparams : (update (update s T DO) T DO).params
      = (update s T DO).params := by
    rw [hp (update s T DO), hP1]
  refine ⟨hparams, ?_⟩
  rw [hs (update s T DO), hP1, hp s, hs s]
  exact applyWrites_idem _ _ (stoichWrites_keys_nodup _)

/-! ## C7: the row-1 alkalinity (charge balance) coefficient -/

/-- Row 1 of the stoichiometry writes: the `'1_12'` (alkalinity)
coefficient is `(1/14)` times the already-written `'1_4'` (ammonium)
coefficient plus `(-1.5/31)` times the already-written `'1_10'`
(phosphate) coefficient. -/
theorem stoich_row1_alk (d p : Dict) :
    ∃ a b : ℚ,
      dget (applyWrites d (stoichWrites p)) "1_4" = some a ∧
      dget (applyWrites d (stoichWrites p)) "1_10" = some b ∧
      dget (applyWrites d (stoichWrites p)) "1_12"
        = some ((1 / 14) * a + (-1.5 / 31) * b) := by
  refine ⟨dgetD p "i_NXS" - (1.0 - dgetD p "f_SI") * dgetD p "i_NSF",
          dgetD p "i_PXS" - (1.0 - dgetD p "f_SI") * dgetD p "i_PSF",
          ?_, ?_, ?_⟩
  · exact dget_applyWrites_mem _ _ _ _ (stoichWrites_keys_nodup p)
      (.tail _ (.head _))
  · exact dget_applyWrites_mem _ _ _ _ (stoichWrites_keys_nodup p)
      (.tail _ (.tail _ (.head _)))
  · exact dget_applyWrites_mem _ _ _ _ (stoichWrites_keys_nodup p)
      (.tail _ (.tail _ (.tail _ (.tail _ (.tail _ (.head _))))))

/-- C7: after any parameter update, the alkalinity coefficient of
hydrolysis row 1 satisfies
`stoichs['1_12'] = (1/14) * stoichs['1_4'] + (-1.5/31) * stoichs['1_10']`,
the nitrogen (component 4) and phosphorus (component 10) coefficients
having been written earlier in the same row. -/
theorem c7_row1_alkalinity (s : ModelState) (T DO : ℚ) :
    ∃ a b : ℚ,
      dget (update s T DO).stoichs "1_4" = some a ∧
      dget (update s T DO).stoichs "1_10" = some b ∧
      dget (update s T DO).stoichs "1_12"
        = some ((1 / 14) * a + (-1.5 / 31) * b) := by
  have hs : (update s T DO).stoichs = applyWrites
      (set_params { s with temperature := T, bulk_DO := DO,
                           delta_t := T - 20.0 }).stoichs
      (stoichWrites (set_params { s with temperature := T, bulk_DO := DO,
                                         delta_t := T - 20.0 }).params) := by
    simp [update, set_stoichs]
  rw [hs]
  exact stoich_row1_alk _ _

/-! ## C4: rejected kinetic overrides -/

/-- C4 counterexample: `alter_kinetic_20C` does not raise.  On the
rejected override `("mu_H", -1)` — and likewise on an unrecognized name —
it returns normally (`.ok`), leaving the kinetics dict (indeed the whole
state) unchanged, with only an error message printed (the `true` flag).
No `InvalidParameterError` exists anywhere in the code, so the claimed
exception cannot be (and is not) raised. -/
theorem c4_counterexample :
    alter_kinetic_20C m0 "mu_H" (-1) = .ok (m0, true) ∧
    alter_kinetic_20C m0 "no_such_parameter" 5 = .ok (m0, true) := by
  constructor <;> rfl

/-- C4 (amended): a rejected override — non-positive value or
unrecognized name — leaves the state unchanged (no new key, prior value
intact), prints an error message, and returns normally; nothing is
raised. -/
theorem c4_alter_rejected (s : ModelState) (name : String) (v : ℚ)
    (h : ¬ (v > 0 ∧ name ∈ dkeys s.kinetics20C)) :
    alter_kinetic_20C s name v = .ok (s, true) := by
  simp only [alter_kinetic_20C, if_neg h]

/-- C4 witness: the amended statement applied at the concrete rejected
override `("mu_H", -1)` on the freshly initialized model. -/
theorem c4_alter_rejected_witness :
    (¬ ((-1 : ℚ) > 0 ∧ "mu_H" ∈ dkeys m0.kinetics20C)) ∧
    alter_kinetic_20C m0 "mu_H" (-1) = .ok (m0, true) :=
  ⟨by decide, c4_alter_rejected m0 "mu_H" (-1) (by decide)⟩

/-! ## Run lemmas for the `PyM` monad -/

theorem PyM.run_bind {α β : Type} (x : PyM α) (f : α → PyM β)
    (s : ModelState) :
    (x >>= f) s = match x s with
      | (s', .ok a) => f a s'
      | (s', .error e) => (s', .error e) := rfl

theorem PyM.bind_fail {α β : Type} {x : PyM α} {f : α → PyM β}
    {s : ModelState} (h : ((x s).2).isOk = false) :
    (((x >>= f) s).2).isOk = false := by
  rw [PyM.run_bind]
  rcases hx : x s with ⟨s', r⟩
  rcases r with e | a
  · rfl
  · rw [hx] at h
    simp [Except.isOk, Except.toBool] at h

theorem EM.exists_error {α : Type} {x : EM α} (h : x.isOk = false) :
    ∃ e, x = .error e := by
  cases x with
  | error e => exact ⟨e, rfl⟩
  | ok a => simp [Except.isOk, Except.toBool] at h

theorem writeSeq_cons_error (set : Nat → ℚ → PyM Unit) (i : Nat)
    (e : PyErr) (t : List (EM ℚ)) (s : ModelState) :
    writeSeq set i (.error e :: t) s = (s, .error e) := rfl

theorem writeSeq_cons_ok (set : Nat → ℚ → PyM Unit) (i : Nat) (x : ℚ)
    (t : List (EM ℚ)) (s : ModelState) :
    writeSeq set i (.ok x :: t) s =
      match set i x s with
      | (s₂, .ok _) => writeSeq set (i + 1) t s₂
      | (s₂, .error e) => (s₂, .error e) := rfl

/-- Writing a nonempty run of values at indices `i, i+1, …` into the
Monod buffer fails whenever the buffer is shorter than the last index
written: either an earlier right-hand side raises first, or the
assignment at the out-of-range index raises `IndexError`. -/
theorem writeSeq_setMonod_fail :
    ∀ (vals : List (EM ℚ)), vals ≠ [] → ∀ (i : Nat) (s : ModelState),
      s.monods.length < i + vals.length →
      ((writeSeq setMonod i vals s).2).isOk = false := by
  intro vals
  induction vals with
  | nil => intro h; exact absurd rfl h
  | cons v t ih =>
    intro _ i s hlen
    cases v with
    | error e => rw [writeSeq_cons_error]; rfl
    | ok x =>
      rw [writeSeq_cons_ok]
      rcases hset : setMonod i x s with ⟨s₂, r⟩
      rcases r with e | u
      · rfl
      · have hi : i < s.monods.length := by
          by_contra hge
          simp only [setMonod, if_neg hge] at hset
          simp at hset
        simp only [setMonod, if_pos hi] at hset
        have h1 := congrArg Prod.fst hset
        simp only at h1
        subst h1
        cases t with
        | nil =>
          exfalso
          simp only [List.length_cons, List.length_nil] at hlen
          omega
        | cons v' t' =>
          apply ih (by simp) (i + 1)
          simp only [List.length_cons, List.length_set] at hlen ⊢
          omega

theorem monodExprs_length (tr : PyEnv) (p : Dict) (comps : List ℚ) :
    (monodExprs tr p comps).length = 54 := rfl

theorem monodExprs_ne_nil (tr : PyEnv) (p : Dict) (comps : List ℚ) :
    monodExprs tr p comps ≠ [] := by
  intro h
  have := congrArg List.length h
  rw [monodExprs_length] at this
  simp at this

/-- `_reaction_rate` never returns: with the 52-element Monod buffer the
54 Monod assignments raise before the first rate is ever computed. -/
theorem reaction_rate_fail (tr : PyEnv) (comps : List ℚ) (s : ModelState)
    (h : s.monods.length = 52) :
    ((reaction_rate tr comps s).2).isOk = false := by
  have hkey : reaction_rate tr comps s
      = ((writeSeq setMonod 0 (monodExprs tr s.params comps) >>= fun _ =>
          reads ModelState.monods >>= fun ms =>
          writeSeq setRate 0
            (rateExprs tr s.params comps (fun i => eidx ms i)) >>= fun _ =>
          reads ModelState.rateRes) s) := rfl
  rw [hkey]
  exact PyM.bind_fail (writeSeq_setMonod_fail _
    (monodExprs_ne_nil tr s.params comps) 0 s
    (by rw [h, monodExprs_length]; omega))

/-- `_dCdt` never returns: the `_reaction_rate` call on line 1241 raises
before the mass balance is assembled. -/
theorem dCdt_fail (tr : PyEnv) (t : ℚ) (mo_comps : List ℚ) (vol flow : ℚ)
    (in_comps : List ℚ) (fix_DO : Bool) (DO_sat_T : ℚ) (s : ModelState)
    (h : s.monods.length = 52) :
    ((dCdt tr t mo_comps vol flow in_comps fix_DO DO_sat_T s).2).isOk
      = false :=
  PyM.bind_fail (reaction_rate_fail tr mo_comps s h)

/-! ## C2: `_reaction_rate` always raises; C1/C3: consequences for `_dCdt` -/

/-- C2: the Monod buffer is initialized with length 52 (`[1.0] * 52`),
yet `_reaction_rate` assigns Monod indices up to 53 — so on the
initialized model every invocation of `_reaction_rate` raises before
returning (IndexError at index 52, or an earlier ZeroDivisionError from a
ratio term), the rate-14 expression additionally subscripts the `_monod`
method (TypeError), and consequently `_dCdt` never returns a derivative
vector, for any 24-element state vector and any environment. -/
theorem c2_reaction_rate_always_raises (tr : PyEnv) (comps : List ℚ)
    (s : ModelState) (hm : s.monods.length = 52) (hc : comps.length = 24) :
    (∀ T DO : ℚ, (initState T DO).monods.length = 52) ∧
    (∀ mv : Nat → EM ℚ, ∀ x y : ℚ, mv 14 = .ok x → mv 27 = .ok y →
      rateRHS14 mv = .error .typeError) ∧
    ((reaction_rate tr comps s).2).isOk = false ∧
    (∀ (t vol flow : ℚ) (in_comps : List ℚ) (fix_DO : Bool)
       (DO_sat_T : ℚ),
      ((dCdt tr t comps vol flow in_comps fix_DO DO_sat_T s).2).isOk
        = false) := by
  refine ⟨fun T DO => rfl, fun mv x y hx hy => ?_, reaction_rate_fail tr comps s hm,
    fun t vol flow in_comps fix_DO DO_sat_T =>
      dCdt_fail tr t comps vol flow in_comps fix_DO DO_sat_T s hm⟩
  simp only [rateRHS14, hx, hy]
  rfl

/-- C2 witness: the theorem applied to the freshly initialized model, a
benign all-ones state vector, and a concrete environment. -/
theorem c2_witness :
    m0.monods.length = 52 ∧ ones24.length = 24 ∧
    ((reaction_rate tr0 ones24 m0).2).isOk = false ∧
    ((dCdt tr0 0 ones24 1 1 zeros24 false 9 m0).2).isOk = false :=
  ⟨by decide, by decide,
   (c2_reaction_rate_always_raises tr0 ones24 m0 (by decide)
      (by decide)).2.2.1,
   (c2_reaction_rate_always_raises tr0 ones24 m0 (by decide)
      (by decide)).2.2.2 0 1 1 zeros24 false 9⟩

/-- C1: on every valid input — 24 non-negative concentrations, positive
flow, nonzero heterotroph (index 15) and PAO (index 16) biomass — `_dCdt`
on the initialized model (52-element Monod buffer) does not return 24
finite values: it raises.  The claim's conclusion never happens; the spec
describes the evident intent of the code, and the Monod-buffer length is
the slip (see `c2_reaction_rate_always_raises`). -/
theorem c1_dCdt_never_returns (tr : PyEnv) (t : ℚ) (mo_comps : List ℚ)
    (vol flow : ℚ) (in_comps : List ℚ) (fix_DO : Bool) (DO_sat_T : ℚ)
    (s : ModelState) (hm : s.monods.length = 52)
    (hlen : mo_comps.length = 24) (hnn : ∀ x ∈ mo_comps, 0 ≤ x)
    (h15 : mo_comps.getD 15 0 ≠ 0) (h16 : mo_comps.getD 16 0 ≠ 0)
    (hflow : 0 < flow) :
    ∃ e, ((dCdt tr t mo_comps vol flow in_comps fix_DO DO_sat_T s).2)
      = .error e :=
  EM.exists_error
    (dCdt_fail tr t mo_comps vol flow in_comps fix_DO DO_sat_T s hm)

/-- C1 witness: the theorem applied to the initialized model, the
all-ones state vector, and a unit-volume unit-flow environment. -/
theorem c1_dCdt_never_returns_witness :
    m0.monods.length = 52 ∧ ones24.length = 24 ∧
    (∀ x ∈ ones24, 0 ≤ x) ∧ ones24.getD 15 0 ≠ 0 ∧
    ones24.getD 16 0 ≠ 0 ∧ (0 : ℚ) < 1 ∧
    ∃ e, ((dCdt tr0 0 ones24 1 1 zeros24 false 9 m0).2) = .error e :=
  ⟨by decide, by decide, by decide, by decide, by decide, by decide,
   c1_dCdt_never_returns tr0 0 ones24 1 1 zeros24 false 9 m0 (by decide)
     (by decide) (by decide) (by decide) (by decide) (by decide)⟩

/-- C3 counterexample: with `flow = 0` (and an otherwise benign
environment) `_dCdt` on the initialized model raises — but what escapes
is one of Python's built-in exceptions raised by `_reaction_rate`
(`IndexError` from the Monod-buffer overflow, which runs before
`vol / flow` is ever evaluated, or `ZeroDivisionError`, or the
`TypeError` of line 722): the error inventory of this code contains no
`InvalidEnvironmentError`, a type that exists nowhere in the
repository. -/
theorem c3_counterexample :
    (∃ e, ((dCdt tr0 0 ones24 1 0 zeros24 false 9 m0).2) = .error e) ∧
    ∀ e : PyErr, e = .zeroDivisionError ∨ e = .indexError ∨ e = .typeError :=
  ⟨EM.exists_error (dCdt_fail tr0 0 ones24 1 0 zeros24 false 9 m0
     (by decide)),
   fun e => by cases e <;> simp⟩

/-- C3 (amended): calling `_dCdt` with `flow = 0` on the initialized
model raises an exception, but it is the `IndexError` (or an earlier
`ZeroDivisionError`) escaping `_reaction_rate`, which is called before
the `vol / flow` division; no `InvalidEnvironmentError` exists in the
code. -/
theorem c3_flow_zero_raises (tr : PyEnv) (t : ℚ) (mo_comps : List ℚ)
    (vol : ℚ) (in_comps : List ℚ) (fix_DO : Bool) (DO_sat_T : ℚ)
    (s : ModelState) (hm : s.monods.length = 52) :
    ∃ e, ((dCdt tr t mo_comps vol 0 in_comps fix_DO DO_sat_T s).2)
      = .error e :=
  EM.exists_error
    (dCdt_fail tr t mo_comps vol 0 in_comps fix_DO DO_sat_T s hm)

/-- C3 witness: the amended statement at a concrete zero-flow call. -/
theorem c3_flow_zero_raises_witness :
    m0.monods.length = 52 ∧
    ∃ e, ((dCdt tr0 0 ones24 1 0 zeros24 false 9 m0).2) = .error e :=
  ⟨by decide, c3_flow_zero_raises tr0 0 ones24 1 zeros24 false 9 m0
    (by decide)⟩

/-! ## C10: the derivative call only writes its scratch buffers, and a
repeated call is identical -/

theorem get?_set_self {α : Type} :
    ∀ (l : List α) (i : Nat) (v : α), i < l.length →
      (l.set i v).get? i = some v := by
  intro l
  induction l with
  | nil => intro i v h; simp at h
  | cons a t ih =>
    intro i v h
    cases i with
    | zero => rfl
    | succ n => simpa using ih n v (by simpa using h)

theorem get?_set_ne {α : Type} :
    ∀ (l : List α) (i j : Nat) (v : α), i ≠ j →
      (l.set i v).get? j = l.get? j := by
  intro l
  induction l with
  | nil => intro i j v _; rfl
  | cons a t ih =>
    intro i j v hij
    cases i with
    | zero =>
      cases j with
      | zero => exact absurd rfl hij
      | succ m => rfl
    | succ n =>
      cases j with
      | zero => rfl
      | succ m => simpa using ih n m v (by omega)

theorem set_eq_of_get? {α : Type} :
    ∀ (l : List α) (i : Nat) (v : α), l.get? i = some v →
      l.set i v = l := by
  intro l
  induction l with
  | nil => intro i v h; simp [List.get?] at h
  | cons a t ih =>
    intro i v h
    cases i with
    | zero =>
      simp only [List.get?] at h
      injection h with h
      simp [List.set, h]
    | succ n =>
      simp only [List.get?] at h
      simp [List.set, ih n v h]

theorem writeSeq_setMonod_length :
    ∀ (vals : List (EM ℚ)) (i : Nat) (s : ModelState),
      ((writeSeq setMonod i vals s).1).monods.length = s.monods.length := by
  intro vals
  induction vals with
  | nil => intro i s; rfl
  | cons v t ih =>
    intro i s
    cases v with
    | error e => rfl
    | ok x =>
      rw [writeSeq_cons_ok]
      by_cases hi : i < s.monods.length
      · simp only [setMonod, if_pos hi]
        rw [ih]
        simp
      · simp only [setMonod, if_neg hi]

theorem writeSeq_setMonod_get?_lt :
    ∀ (vals : List (EM ℚ)) (i j : Nat) (s : ModelState), j < i →
      ((writeSeq setMonod i vals s).1).monods.get? j = s.monods.get? j := by
  intro vals
  induction vals with
  | nil => intro i j s _; rfl
  | cons v t ih =>
    intro i j s hj
    cases v with
    | error e => rfl
    | ok x =>
      rw [writeSeq_cons_ok]
      by_cases hi : i < s.monods.length
      · simp only [setMonod, if_pos hi]
        rw [ih _ _ _ (by omega)]
        exact get?_set_ne _ _ _ _ (by omega)
      · simp only [setMonod, if_neg hi]

theorem writeSeq_setMonod_idem :
    ∀ (vals : List (EM ℚ)) (i : Nat) (s : ModelState),
      writeSeq setMonod i vals ((writeSeq setMonod i vals s).1)
        = writeSeq setMonod i vals s := by
  intro vals
  induction vals with
  | nil => intro i s; rfl
  | cons v t ih =>
    intro i s
    cases v with
    | error e => rfl
    | ok x =>
      by_cases hi : i < s.monods.length
      · have hrun : writeSeq setMonod i (.ok x :: t) s
            = writeSeq setMonod (i + 1) t
                { s with monods := s.monods.set i x } := by
          rw [writeSeq_cons_ok]
          simp only [setMonod, if_pos hi]
        rw [hrun, writeSeq_cons_ok]
        have hlen : ((writeSeq setMonod (i + 1) t
            { s with monods := s.monods.set i x }).1).monods.length
            = s.monods.length := by
          rw [writeSeq_setMonod_length]; simp
        have hget : ((writeSeq setMonod (i + 1) t
            { s with monods := s.monods.set i x }).1).monods.get? i
            = some x := by
          rw [writeSeq_setMonod_get?_lt _ _ _ _ (by omega)]
          exact get?_set_self _ _ _ hi
        simp only [setMonod, if_pos (hlen ▸ hi), set_eq_of_get? _ _ _ hget]
        exact ih (i + 1) _
      · have hrun : writeSeq setMonod i (.ok x :: t) s
            = (s, .error .indexError) := by
          rw [writeSeq_cons_ok]
          simp only [setMonod, if_neg hi]
        rw [hrun]
        show writeSeq setMonod i (.ok x :: t) s = (s, .error .indexError)
        exact hrun

theorem agrees_refl (s : ModelState) : agreesExceptBuffers s s :=
  ⟨rfl, rfl, rfl, rfl, rfl, rfl, rfl, rfl⟩

theorem agrees_trans {a b c : ModelState} (h1 : agreesExceptBuffers a b)
    (h2 : agreesExceptBuffers b c) : agreesExceptBuffers a c := by
  obtain ⟨x1, x2, x3, x4, x5, x6, x7, x8⟩ := h1
  obtain ⟨y1, y2, y3, y4, y5, y6, y7, y8⟩ := h2
  exact ⟨y1.trans x1, y2.trans x2, y3.trans x3, y4.trans x4, y5.trans x5,
    y6.trans x6, y7.trans x7, y8.trans x8⟩

theorem setMonod_frame (i : Nat) (v : ℚ) (s : ModelState) :
    agreesExceptBuffers s ((setMonod i v s).1) := by
  unfold setMonod
  split <;> exact ⟨rfl, rfl, rfl, rfl, rfl, rfl, rfl, rfl⟩

theorem setRate_frame (i : Nat) (v : ℚ) (s : ModelState) :
    agreesExceptBuffers s ((setRate i v s).1) := by
  unfold setRate
  split <;> exact ⟨rfl, rfl, rfl, rfl, rfl, rfl, rfl, rfl⟩

theorem writeSeq_frame (set : Nat → ℚ → PyM Unit)
    (hset : ∀ i v s, agreesExceptBuffers s ((set i v s).1)) :
    ∀ (vals : List (EM ℚ)) (i : Nat) (s : ModelState),
      agreesExceptBuffers s ((writeSeq set i vals s).1) := by
  intro vals
  induction vals with
  | nil => intro i s; exact agrees_refl s
  | cons v t ih =>
    intro i s
    cases v with
    | error e => exact agrees_refl s
    | ok x =>
      rw [writeSeq_cons_ok]
      rcases hrun : set i x s with ⟨s₂, r⟩
      have h2 : agreesExceptBuffers s s₂ := by
        have := hset i x s
        rw [hrun] at this
        exact this
      rcases r with e | u
      · exact h2
      · exact agrees_trans h2 (ih (i + 1) s₂)

theorem PyM.bind_frame {α β : Type} {x : PyM α} {f : α → PyM β}
    (hx : ∀ s, agreesExceptBuffers s ((x s).1))
    (hf : ∀ a s, agreesExceptBuffers s ((f a s).1)) :
    ∀ s, agreesExceptBuffers s (((x >>= f) s).1) := by
  intro s
  rw [PyM.run_bind]
  rcases hx2 : x s with ⟨s', r⟩
  have h1 : agreesExceptBuffers s s' := by
    have := hx s; rw [hx2] at this; exact this
  rcases r with e | a
  · exact h1
  · exact agrees_trans h1 (hf a s')

theorem reaction_rate_frame (tr : PyEnv) (comps : List ℚ) (s : ModelState) :
    agreesExceptBuffers s ((reaction_rate tr comps s).1) := by
  have hkey : reaction_rate tr comps
      = (reads ModelState.params >>= fun p =>
         writeSeq setMonod 0 (monodExprs tr p comps) >>= fun _ =>
         reads ModelState.monods >>= fun ms =>
         writeSeq setRate 0
           (rateExprs tr p comps (fun i => eidx ms i)) >>= fun _ =>
         reads ModelState.rateRes) := rfl
  rw [hkey]
  refine PyM.bind_frame (fun s => agrees_refl s) (fun p => ?_) s
  refine PyM.bind_frame
    (fun s => writeSeq_frame setMonod setMonod_frame _ 0 s) (fun _ => ?_)
  refine PyM.bind_frame (fun s => agrees_refl s) (fun ms => ?_)
  refine PyM.bind_frame
    (fun s => writeSeq_frame setRate setRate_frame _ 0 s) (fun _ => ?_)
  exact fun s => agrees_refl s

theorem dCdt_frame (tr : PyEnv) (t : ℚ) (mo_comps : List ℚ) (vol flow : ℚ)
    (in_comps : List ℚ) (fix_DO : Bool) (DO_sat_T : ℚ) (s : ModelState) :
    agreesExceptBuffers s
      ((dCdt tr t mo_comps vol flow in_comps fix_DO DO_sat_T s).1) := by
  refine PyM.bind_frame (fun s => reaction_rate_frame tr mo_comps s)
    (fun _ s => agrees_refl s) s

/-- Error propagation: if the Monod-assignment prefix of
`_reaction_rate` raises, the whole call raises the same exception from
the same state — the rate section and the return are never reached. -/
theorem reaction_rate_run (tr : PyEnv) (comps : List ℚ) {s s₁ : ModelState}
    {e : PyErr}
    (hw : writeSeq setMonod 0 (monodExprs tr s.params comps) s
      = (s₁, .error e)) :
    reaction_rate tr comps s = (s₁, .error e) := by
  have hkey : reaction_rate tr comps s
      = ((writeSeq setMonod 0 (monodExprs tr s.params comps) >>= fun _ =>
          reads ModelState.monods >>= fun ms =>
          writeSeq setRate 0
            (rateExprs tr s.params comps (fun i => eidx ms i)) >>= fun _ =>
          reads ModelState.rateRes) s) := rfl
  rw [hkey, PyM.run_bind, hw]

/-- Error propagation from `_reaction_rate` into `_dCdt`. -/
theorem dCdt_run (tr : PyEnv) (t : ℚ) (mo_comps : List ℚ) (vol flow : ℚ)
    (in_comps : List ℚ) (fix_DO : Bool) (DO_sat_T : ℚ)
    {s s₁ : ModelState} {e : PyErr}
    (hr : reaction_rate tr mo_comps s = (s₁, .error e)) :
    dCdt tr t mo_comps vol flow in_comps fix_DO DO_sat_T s
      = (s₁, .error e) := by
  have hkey : dCdt tr t mo_comps vol flow in_comps fix_DO DO_sat_T s
      = ((reaction_rate tr mo_comps >>= fun _ => fun s =>
          (s, dCdtAssemble s mo_comps vol flow in_comps fix_DO DO_sat_T))
         s) := rfl
  rw [hkey, PyM.run_bind, hr]

/-- The shape of a `_reaction_rate` run on a 52-element Monod buffer:
some exception, escaping from the Monod-assignment prefix. -/
theorem reaction_rate_shape (tr : PyEnv) (comps : List ℚ) (s : ModelState)
    (hm : s.monods.length = 52) :
    ∃ (s₁ : ModelState) (e : PyErr),
      writeSeq setMonod 0 (monodExprs tr s.params comps) s
        = (s₁, .error e) ∧
      reaction_rate tr comps s = (s₁, .error e) := by
  rcases hw : writeSeq setMonod 0 (monodExprs tr s.params comps) s
    with ⟨s₁, r⟩
  have hfail := writeSeq_setMonod_fail _ (monodExprs_ne_nil tr s.params comps)
    0 s (by rw [hm, monodExprs_length]; omega)
  rw [hw] at hfail
  obtain ⟨e, he⟩ := EM.exists_error hfail
  subst he
  exact ⟨s₁, e, rfl, reaction_rate_run tr comps hw⟩

theorem reaction_rate_idem (tr : PyEnv) (comps : List ℚ) (s : ModelState)
    (hm : s.monods.length = 52) :
    reaction_rate tr comps ((reaction_rate tr comps s).1)
      = reaction_rate tr comps s := by
  obtain ⟨s₁, e, hw, hr⟩ := reaction_rate_shape tr comps s hm
  have hfst : (reaction_rate tr comps s).1 = s₁ := by rw [hr]
  rw [hfst, hr]
  have hs₁ : s₁ = (writeSeq setMonod 0 (monodExprs tr s.params comps) s).1 := by
    rw [hw]
  have hp : s₁.params = s.params := by
    rw [hs₁]
    exact (writeSeq_frame setMonod setMonod_frame _ 0 s).2.2.2.1
  have hw₁ : writeSeq setMonod 0 (monodExprs tr s₁.params comps) s₁
      = (s₁, .error e) := by
    rw [hp, hs₁, writeSeq_setMonod_idem, hw]
  exact reaction_rate_run tr comps hw₁

/-- C10: a `_dCdt` call only writes the two scratch buffers — the stored
state vector, the parameter, stoichiometry and kinetics dicts, and the
environment fields are untouched (the argument vectors `mo_comps` and
`in_comps` are immutable values of the embedding: the code only reads
them) — and a repeated call from the state left by the first call, with
the same arguments and parameter snapshot, is bit-identical: same
resulting state, same result. -/
theorem c10_dCdt_frame_and_repeat (tr : PyEnv) (t : ℚ) (mo_comps : List ℚ)
    (vol flow : ℚ) (in_comps : List ℚ) (fix_DO : Bool) (DO_sat_T : ℚ)
    (s : ModelState) (hm : s.monods.length = 52) :
    agreesExceptBuffers s
      ((dCdt tr t mo_comps vol flow in_comps fix_DO DO_sat_T s).1) ∧
    dCdt tr t mo_comps vol flow in_comps fix_DO DO_sat_T
        ((dCdt tr t mo_comps vol flow in_comps fix_DO DO_sat_T s).1)
      = dCdt tr t mo_comps vol flow in_comps fix_DO DO_sat_T s := by
  refine ⟨dCdt_frame tr t mo_comps vol flow in_comps fix_DO DO_sat_T s, ?_⟩
  obtain ⟨s₁, e, hw, hr⟩ := reaction_rate_shape tr mo_comps s hm
  have hd : dCdt tr t mo_comps vol flow in_comps fix_DO DO_sat_T s
      = (s₁, .error e) := dCdt_run tr t mo_comps vol flow in_comps
        fix_DO DO_sat_T hr
  have hfst : (dCdt tr t mo_comps vol flow in_comps fix_DO DO_sat_T s).1
      = s₁ := by rw [hd]
  have hr₁ : reaction_rate tr mo_comps s₁ = (s₁, .error e) := by
    have h2 := reaction_rate_idem tr mo_comps s hm
    rw [hr] at h2
    exact h2
  rw [hfst, hd]
  exact dCdt_run tr t mo_comps vol flow in_comps fix_DO DO_sat_T hr₁

/-- C10 witness: the theorem at the initialized model with the all-ones
state vector. -/
theorem c10_dCdt_frame_and_repeat_witness :
    m0.monods.length = 52 ∧
    (agreesExceptBuffers m0 ((dCdt tr0 0 ones24 1 1 zeros24 false 9 m0).1) ∧
     dCdt tr0 0 ones24 1 1 zeros24 false 9
         ((dCdt tr0 0 ones24 1 1 zeros24 false 9 m0).1)
       = dCdt tr0 0 ones24 1 1 zeros24 false 9 m0) :=
  ⟨by decide,
   c10_dCdt_frame_and_repeat tr0 0 ones24 1 1 zeros24 false 9 m0 (by decide)⟩

theorem EM.pure_eq {α : Type} (a : α) : (pure a : EM α) = .ok a := rfl

theorem EM.run_bind_ok {α β : Type} (a : α) (f : α → EM β) :
    ((Except.ok a : EM α) >>= f) = f a := rfl

/-! ## C8: the un-ionized nitrite (HNO2) inhibition term -/

/-- C8: the HNO2 inhibition term of `_reaction_rate` (Monod slot 46,
lines 690-695) is the Monod helper applied to `(S_HNO2, K_HNO2_AOB)`,
where `S_HNO2 = (NO2 / (Ka * 10 ^ 7 + 1)) * (47 / 14)`, `NO2` is state
index 7, `Ka = exp(-2300 / (273.15 + 20))` at the fixed reference
temperature 20 °C, and pH is fixed at 7 — exactly the spec's formula
(`S_HNO2_spec`), provided the equilibrium denominator is nonzero (with
the real exponential it is ≥ 1). -/
theorem c8_hno2_term (tr : PyEnv) (p : Dict) (comps : List ℚ)
    (hden : tr.exp (-2300 / (273.15 + 20)) * 10 ^ (7 : ℕ) + 1 ≠ 0) :
    monodAt tr p comps 46
      = emonod (S_HNO2_spec tr (comps.getD 7 0)) (dgetD p "K_HNO2_AOB") := by
  have h46 : monodAt tr p comps 46
      = (ediv (comps.getD 7 0)
           (tr.exp (-2300 / (273.15 + 20)) * 10 ^ (7 : ℕ) + 1) >>= fun q =>
         emonod (q * (47 / 14)) (dgetD p "K_HNO2_AOB")) := rfl
  rw [h46]
  simp only [ediv, if_neg hden]
  rfl

/-- C8 witness: the theorem applied at a concrete environment whose
`exp` is the zero function (denominator `0 * 10 ^ 7 + 1 = 1 ≠ 0`). -/
theorem c8_hno2_term_witness :
    (tr0.exp (-2300 / (273.15 + 20)) * 10 ^ (7 : ℕ) + 1 ≠ 0) ∧
    monodAt tr0 [] [] 46
      = emonod (S_HNO2_spec tr0 (([] : List ℚ).getD 7 0))
          (dgetD [] "K_HNO2_AOB") :=
  ⟨by simp [tr0], c8_hno2_term tr0 [] [] (by simp [tr0])⟩

/-! ## C5: the dissolved-oxygen branch of the mass balance -/

/-- C5: in the mass-balance assembly of `_dCdt` (lines 1243-1322), when
`fix_DO` is set or the configured bulk DO is exactly 0, and the hydraulic
terms are defined (`flow ≠ 0`, `vol ≠ 0`), the assembled derivative
vector exists, has exactly 24 entries, and its dissolved-oxygen entry
(index 0) is exactly `0.0`, regardless of every other input.  (The full
`_dCdt` never returns this vector because `_reaction_rate` raises first —
see C1/C2 — but the O2-forcing branch itself behaves exactly as
claimed.) -/
theorem c5_fix_DO_forces_zero (s : ModelState) (mo_comps : List ℚ)
    (vol flow : ℚ) (in_comps : List ℚ) (fix_DO : Bool) (DO_sat_T : ℚ)
    (hcond : fix_DO = true ∨ s.bulk_DO = 0) (hflow : flow ≠ 0)
    (hvol : vol ≠ 0) :
    ∃ v : List ℚ,
      dCdtAssemble s mo_comps vol flow in_comps fix_DO DO_sat_T = .ok v ∧
      v.length = 24 ∧ v.getD 0 1 = 0 := by
  have hHRT : vol / flow ≠ 0 := div_ne_zero hvol hflow
  simp only [dCdtAssemble, if_neg hflow, if_neg hHRT, if_pos hcond]
  exact ⟨_, rfl, rfl, by rw [List.getD_cons_zero]; norm_num⟩

/-- C5 witness: the assembled vector at the initialized model with
`fix_DO = true`, unit volume and unit flow: it exists, has 24 entries,
and entry 0 is exactly 0. -/
theorem c5_fix_DO_forces_zero_witness :
    ((true : Bool) = true ∨ m0.bulk_DO = 0) ∧ (1 : ℚ) ≠ 0 ∧
    ∃ v : List ℚ,
      dCdtAssemble m0 ones24 1 1 zeros24 true 9 = .ok v ∧
      v.length = 24 ∧ v.getD 0 1 = 0 :=
  ⟨Or.inl rfl, one_ne_zero,
   c5_fix_DO_forces_zero m0 ones24 1 1 zeros24 true 9 (Or.inl rfl)
     one_ne_zero one_ne_zero⟩

/-! ## C6: sign analysis of the 40 process-rate expressions -/

theorem EM.bind_ok_iff {α β : Type} {x : EM α} {f : α → EM β} {b : β} :
    (x >>= f) = .ok b ↔ ∃ a, x = .ok a ∧ f a = .ok b := by
  cases x with
  | error e => simp [Bind.bind, Except.bind]
  | ok a => simp [Bind.bind, Except.bind]

theorem EM.pure_ok_iff {α : Type} {a b : α} :
    (pure a : EM α) = .ok b ↔ a = b := by
  simp [pure, Except.pure]

theorem EM.error_ok_iff {α : Type} {e : PyErr} {b : α} :
    (Except.error e : EM α) = .ok b ↔ False := by
  simp

theorem dget_mem : ∀ (d : Dict) (k : String) (v : ℚ),
    dget d k = some v → (k, v) ∈ d := by
  intro d
  induction d with
  | nil => intro k v h; simp [dget] at h
  | cons kv t ih =>
    intro k v h
    obtain ⟨k0, v0⟩ := kv
    by_cases h0 : k0 = k
    · subst h0
      simp [dget] at h
      simp [h]
    · simp only [dget, if_neg h0] at h
      exact List.mem_cons_of_mem _ (ih k v h)

theorem dgetD_nonneg (d : Dict) (hd : ∀ kv ∈ d, 0 ≤ kv.2) (k : String) :
    0 ≤ dgetD d k := by
  unfold dgetD
  rcases hq : dget d k with - | v
  · simp
  · simpa using hd (k, v) (dget_mem d k v hq)

theorem getD_get? {α : Type} :
    ∀ (l : List α) (i : Nat) (d : α), l.getD i d = (l.get? i).getD d := by
  intro l
  induction l with
  | nil => intro i d; cases i <;> rfl
  | cons a t ih =>
    intro i d
    cases i with
    | zero => rfl
    | succ n => simpa using ih n d

theorem getD_nonneg (l : List ℚ) (hl : ∀ x ∈ l, 0 ≤ x) (i : Nat) :
    0 ≤ l.getD i 0 := by
  rw [getD_get?]
  rcases hq : l.get? i with - | x
  · simp
  · simpa using hl x (List.get?_mem hq)

theorem ediv_ok {a b v : ℚ} (h : ediv a b = .ok v) :
    v = a / b ∧ b ≠ 0 := by
  unfold ediv at h
  split at h
  · exact absurd h (by simp)
  · injection h with h
    exact ⟨h.symm, by assumption⟩

theorem ediv_ok_nonneg {a b v : ℚ} (ha : 0 ≤ a) (hb : 0 ≤ b)
    (h : ediv a b = .ok v) : 0 ≤ v := by
  obtain ⟨rfl, -⟩ := ediv_ok h
  exact div_nonneg ha hb

theorem emonod_ok_nonneg {a b v : ℚ} (ha : 0 ≤ a) (hb : 0 ≤ b)
    (h : emonod a b = .ok v) : 0 ≤ v :=
  ediv_ok_nonneg ha (add_nonneg ha hb) h

set_option maxHeartbeats 2000000 in
/-- Every Monod-term value computed by lines 643-705 is non-negative,
given non-negative parameters and state, the storage-ratio side condition
for term 35, and non-negativity of the exponential for term 46. -/
theorem monodExprs_ok_nonneg (tr : PyEnv) (p : Dict) (comps : List ℚ)
    (hp : ∀ kv ∈ p, 0 ≤ kv.2) (hc : ∀ x ∈ comps, 0 ≤ x)
    (hratio : comps.getD 17 0 / comps.getD 16 0 ≤ dgetD p "K_MAX_P")
    (hexp : 0 ≤ tr.exp (-2300 / (273.15 + 20))) :
    ∀ m ∈ monodExprs tr p comps, ∀ v : ℚ, m = .ok v → 0 ≤ v := by
  have hpi : ∀ k, 0 ≤ dgetD p k := dgetD_nonneg p hp
  have hci : ∀ i, 0 ≤ comps.getD i 0 := getD_nonneg comps hc
  intro m hm
  simp only [monodExprs, List.mem_cons, List.not_mem_nil, or_false] at hm
  rcases hm with rfl | rfl | rfl | rfl | rfl | rfl | rfl | rfl | rfl | rfl | rfl | rfl | rfl | rfl | rfl | rfl | rfl | rfl | rfl | rfl | rfl | rfl | rfl | rfl | rfl | rfl | rfl | rfl | rfl | rfl | rfl | rfl | rfl | rfl | rfl | rfl | rfl | rfl | rfl | rfl | rfl | rfl | rfl | rfl | rfl | rfl | rfl | rfl | rfl | rfl | rfl | rfl | rfl | rfl
  all_goals intro v hv
  · exact emonod_ok_nonneg (hci _) (hpi _) hv
  · rw [EM.bind_ok_iff] at hv
    obtain ⟨q, hq, hmv⟩ := hv
    exact emonod_ok_nonneg (ediv_ok_nonneg (hci 14) (hci 15) hq) (hpi _) hmv
  · exact emonod_ok_nonneg (hpi _) (hci _) hv
  · exact emonod_ok_nonneg (hci _) (hpi _) hv
  · exact emonod_ok_nonneg (hci _) (hpi _) hv
  · exact emonod_ok_nonneg (hpi _) (add_nonneg (hci _) (hci _)) hv
  · exact emonod_ok_nonneg (hci _) (hpi _) hv
  · exact emonod_ok_nonneg (hci _) (hci _) hv
  · exact emonod_ok_nonneg (hci _) (hpi _) hv
  · exact emonod_ok_nonneg (hci _) (hpi _) hv
  · exact emonod_ok_nonneg (hci _) (hpi _) hv
  · exact emonod_ok_nonneg (hci _) (hpi _) hv
  · exact emonod_ok_nonneg (hci _) (hpi _) hv
  · exact emonod_ok_nonneg (hci _) (hci _) hv
  · exact emonod_ok_nonneg (hpi _) (hci _) hv
  · exact emonod_ok_nonneg (hci _) (hpi _) hv
  · exact emonod_ok_nonneg (hci _) (hpi _) hv
  · exact emonod_ok_nonneg (hpi _) (hci _) hv
  · exact emonod_ok_nonneg (hci _) (hpi _) hv
  · rw [EM.bind_ok_iff] at hv
    obtain ⟨q, hq, hmv⟩ := hv
    exact emonod_ok_nonneg (hci 6)
      (add_nonneg (hpi _) (ediv_ok_nonneg (by positivity) (hpi _) hq)) hmv
  · exact emonod_ok_nonneg (hpi _) (hci _) hv
  · exact emonod_ok_nonneg (hci _) (hpi _) hv
  · exact emonod_ok_nonneg (hci _) (hpi _) hv
  · exact emonod_ok_nonneg (hpi _) (hci _) hv
  · exact emonod_ok_nonneg (hci _) (hpi _) hv
  · exact emonod_ok_nonneg (hci _) (hpi _) hv
  · exact emonod_ok_nonneg (hci _) (hpi _) hv
  · exact emonod_ok_nonneg (hpi _) (add_nonneg (hci _) (hci _)) hv
  · exact emonod_ok_nonneg (hci _) (hpi _) hv
  · exact emonod_ok_nonneg (hci _) (hpi _) hv
  · exact emonod_ok_nonneg (hci _) (hpi _) hv
  · rw [EM.bind_ok_iff] at hv
    obtain ⟨q, hq, hmv⟩ := hv
    exact emonod_ok_nonneg (ediv_ok_nonneg (hci 17) (hci 16) hq) (hpi _) hmv
  · exact emonod_ok_nonneg (hci _) (hpi _) hv
  · exact emonod_ok_nonneg (hci _) (hpi _) hv
  · rw [EM.bind_ok_iff] at hv
    obtain ⟨q, hq, hmv⟩ := hv
    exact emonod_ok_nonneg (ediv_ok_nonneg (hci 18) (hci 16) hq) (hpi _) hmv
  · rw [EM.bind_ok_iff] at hv
    obtain ⟨q, hq, hmv⟩ := hv
    obtain ⟨rfl, -⟩ := ediv_ok hq
    exact emonod_ok_nonneg (sub_nonneg.mpr hratio) (hpi _) hmv
  · exact emonod_ok_nonneg (hci _) (hpi _) hv
  · exact emonod_ok_nonneg (hpi _) (hci _) hv
  · exact emonod_ok_nonneg (hci _) (hpi _) hv
  · exact emonod_ok_nonneg (hci _) (hpi _) hv
  · exact emonod_ok_nonneg (hci _) (hpi _) hv
  · exact emonod_ok_nonneg (hci _) (hpi _) hv
  · exact emonod_ok_nonneg (hci _) (hpi _) hv
  · exact emonod_ok_nonneg (hci _) (hpi _) hv
  · exact emonod_ok_nonneg (hci _) (hpi _) hv
  · exact emonod_ok_nonneg (hci _) (hpi _) hv
  · rw [EM.bind_ok_iff] at hv
    obtain ⟨q, hq, hmv⟩ := hv
    have hqn : 0 ≤ q := by
      obtain ⟨rfl, -⟩ := ediv_ok hq
      refine div_nonneg (hci 7) ?_
      have h10 : (0 : ℚ) ≤ tr.exp (-2300 / (273.15 + 20)) * 10 ^ (7 : ℕ) :=
        mul_nonneg hexp (by norm_num)
      linarith
    exact emonod_ok_nonneg (mul_nonneg hqn (by norm_num)) (hpi _) hmv
  · exact emonod_ok_nonneg (hci _) (hpi _) hv
  · exact emonod_ok_nonneg (hci _) (hpi _) hv
  · exact emonod_ok_nonneg (hci _) (hpi _) hv
  · exact emonod_ok_nonneg (hci _) (hpi _) hv
  · exact emonod_ok_nonneg (hci _) (hpi _) hv
  · exact emonod_ok_nonneg (hci _) (hpi _) hv
  · exact emonod_ok_nonneg (hci _) (by norm_num) hv

/-- The Monod-buffer read used by the rate expressions is non-negative
whenever it returns a value. -/
theorem monodAt_ok_nonneg (tr : PyEnv) (p : Dict) (comps : List ℚ)
    (hp : ∀ kv ∈ p, 0 ≤ kv.2) (hc : ∀ x ∈ comps, 0 ≤ x)
    (hratio : comps.getD 17 0 / comps.getD 16 0 ≤ dgetD p "K_MAX_P")
    (hexp : 0 ≤ tr.exp (-2300 / (273.15 + 20))) :
    ∀ (j : Nat) (v : ℚ), monodAt tr p comps j = .ok v → 0 ≤ v := by
  intro j v hv
  unfold monodAt at hv
  rw [getD_get?] at hv
  rcases hq : (monodExprs tr p comps).get? j with - | m
  · rw [hq] at hv
    simp at hv
  · rw [hq] at hv
    exact monodExprs_ok_nonneg tr p comps hp hc hratio hexp m
      (List.get?_mem hq) v hv

/-! ## Fresh-key dict writes and the initial parameter snapshot -/

theorem dget_append_of_none : ∀ (d₁ d₂ : Dict) (k : String),
    dget d₁ k = none → dget (d₁ ++ d₂) k = dget d₂ k := by
  intro d₁
  induction d₁ with
  | nil => intro d₂ k _; rfl
  | cons kv t ih =>
    intro d₂ k h
    obtain ⟨k₀, v₀⟩ := kv
    by_cases hk : k₀ = k
    · simp [dget, hk] at h
    · simp only [dget, if_neg hk] at h
      simp only [List.cons_append, dget, if_neg hk]
      exact ih d₂ k h

theorem dset_of_none : ∀ (d : Dict) (k : String) (v : ℚ),
    dget d k = none → dset d k v = d ++ [(k, v)] := by
  intro d
  induction d with
  | nil => intro k v _; rfl
  | cons kv t ih =>
    intro k v h
    obtain ⟨k₀, v₀⟩ := kv
    by_cases hk : k₀ = k
    · simp [dget, hk] at h
    · simp only [dget, if_neg hk] at h
      simp only [dset, if_neg hk, List.cons_append, ih k v h]

theorem applyWrites_of_fresh : ∀ (ws : List (String × ℚ)) (d : Dict),
    (∀ k ∈ ws.map Prod.fst, dget d k = none) → (ws.map Prod.fst).Nodup →
    applyWrites d ws = d ++ ws := by
  intro ws
  induction ws with
  | nil => intro d _ _; simp [applyWrites]
  | cons kv t ih =>
    intro d h hnd
    obtain ⟨k, v⟩ := kv
    simp only [List.map_cons, List.forall_mem_cons] at h
    simp only [List.map_cons, List.nodup_cons] at hnd
    rw [applyWrites_cons, dset_of_none d k v h.1, ih _ ?_ hnd.2,
      List.append_assoc, List.singleton_append]
    intro k₀ hk₀
    rw [dget_append_of_none d _ k₀ (h.2 k₀ hk₀)]
    have hne : k ≠ k₀ := fun he => hnd.1 (he ▸ hk₀)
    simp [dget, hne]

/-- The parameter snapshot of the freshly initialized model is exactly the
ordered copy of the default kinetics: `_set_params` runs against the empty
`_params` dict and every key it writes is distinct. -/
theorem m0_params : m0.params = paramWrites kineticsDefaults := by
  have h0 : m0.params = applyWrites [] (paramWrites kineticsDefaults) := rfl
  rw [h0, applyWrites_of_fresh (paramWrites kineticsDefaults) [] (fun k _ => rfl)
    (by rw [paramWrites_keys]; exact paramKeys_nodup)]
  exact List.nil_append _

set_option maxHeartbeats 1000000 in
theorem kineticsDefaults_nonneg : ∀ kv ∈ kineticsDefaults, 0 ≤ kv.2 := by
  norm_num [kineticsDefaults, List.forall_mem_cons]

theorem paramWrites_nonneg (kin : Dict) (h : ∀ kv ∈ kin, 0 ≤ kv.2) :
    ∀ kv ∈ paramWrites kin, 0 ≤ kv.2 := by
  intro kv hkv
  simp only [paramWrites, List.mem_map] at hkv
  obtain ⟨k, -, rfl⟩ := hkv
  exact dgetD_nonneg kin h k

set_option maxHeartbeats 8000000 in
/-- C6 (amended): with every concentration non-negative and every
parameter non-negative, each of the 40 process rates of lines 708-751 that
evaluates to a value at all is non-negative — provided additionally that
the stored-polyphosphate ratio `X_PP / X_PAO` does not exceed `K_MAX_P`
(otherwise Monod term 35 and with it rate 17 go negative, refuting the
claim as stated: see the counterexample), that the modelled
`math.exp(-2300/(273.15+20))` is non-negative, and that the `fSO2`
denominator of line 744 is positive.  Rate 14 never evaluates to a value
(it raises a `TypeError`), so the claim holds for it vacuously. -/
theorem c6_rates_nonneg (tr : PyEnv) (p : Dict) (comps : List ℚ)
    (hp : ∀ kv ∈ p, 0 ≤ kv.2)
    (hc : ∀ x ∈ comps, 0 ≤ x)
    (hratio : comps.getD 17 0 / comps.getD 16 0 ≤ dgetD p "K_MAX_P")
    (hexp : 0 ≤ tr.exp (-2300 / (273.15 + 20)))
    (hden : 0 < dgetD p "K_O2_AOB_ND"
        + (1.0 - 2.0 * tr.sqrtq (dgetD p "K_O2_AOB_ND" / dgetD p "K_I_O2_AOB"))
          * comps.getD 0 0
        + comps.getD 0 0 ^ 2 / dgetD p "K_I_O2_AOB") :
    ∀ r ∈ ratesIdeal tr p comps, ∀ v : ℚ, r = .ok v → 0 ≤ v := by
  have hpi : ∀ k, 0 ≤ dgetD p k := dgetD_nonneg p hp
  have hci : ∀ i, 0 ≤ comps.getD i 0 := getD_nonneg comps hc
  have hmono : ∀ (j : Nat) (v : ℚ), monodAt tr p comps j = .ok v → 0 ≤ v :=
    monodAt_ok_nonneg tr p comps hp hc hratio hexp
  intro r hr v hv
  simp only [ratesIdeal, rateExprs, List.mem_cons, List.not_mem_nil,
    or_false] at hr
  rcases hr with rfl | rfl | rfl | rfl | rfl | rfl | rfl | rfl | rfl | rfl | rfl | rfl | rfl | rfl | rfl | rfl | rfl | rfl | rfl | rfl | rfl | rfl | rfl | rfl | rfl | rfl | rfl | rfl | rfl | rfl | rfl | rfl | rfl | rfl | rfl | rfl | rfl | rfl | rfl | rfl
  · simp only [rateRHS0, EM.bind_ok_iff, EM.pure_ok_iff] at hv
    obtain ⟨a0, h0, a1, h1, rfl⟩ := hv
    have n0 := hmono _ _ h0
    have n1 := hmono _ _ h1
    repeat' apply mul_nonneg
    all_goals first | assumption | exact hpi _ | exact hci _
  · simp only [rateRHS1, EM.bind_ok_iff, EM.pure_ok_iff] at hv
    obtain ⟨a0, h0, a1, h1, a2, h2, rfl⟩ := hv
    have n0 := hmono _ _ h0
    have n1 := hmono _ _ h1
    have n2 := hmono _ _ h2
    repeat' apply mul_nonneg
    all_goals first | assumption | exact hpi _ | exact hci _
  · simp only [rateRHS2, EM.bind_ok_iff, EM.pure_ok_iff] at hv
    obtain ⟨a0, h0, a1, h1, a2, h2, rfl⟩ := hv
    have n0 := hmono _ _ h0
    have n1 := hmono _ _ h1
    have n2 := hmono _ _ h2
    repeat' apply mul_nonneg
    all_goals first | assumption | exact hpi _ | exact hci _
  · simp only [rateRHS3, EM.bind_ok_iff, EM.pure_ok_iff] at hv
    obtain ⟨a0, h0, a1, h1, a2, h2, rfl⟩ := hv
    have n0 := hmono _ _ h0
    have n1 := hmono _ _ h1
    have n2 := hmono _ _ h2
    repeat' apply mul_nonneg
    all_goals first | assumption | exact hpi _ | exact hci _
  · simp only [rateRHS4, EM.bind_ok_iff, EM.pure_ok_iff] at hv
    obtain ⟨a0, h0, a1, h1, a2, h2, a3, h3, a4, h4, a5, h5, rfl⟩ := hv
    have n0 := hmono _ _ h0
    have n1 := hmono _ _ h1
    have n2 := hmono _ _ h2
    have n3 := hmono _ _ h3
    have n4 := hmono _ _ h4
    have n5 := hmono _ _ h5
    repeat' apply mul_nonneg
    all_goals first | assumption | exact hpi _ | exact hci _
  · simp only [rateRHS5, EM.bind_ok_iff, EM.pure_ok_iff] at hv
    obtain ⟨a0, h0, a1, h1, a2, h2, a3, h3, a4, h4, a5, h5, rfl⟩ := hv
    have n0 := hmono _ _ h0
    have n1 := hmono _ _ h1
    have n2 := hmono _ _ h2
    have n3 := hmono _ _ h3
    have n4 := hmono _ _ h4
    have n5 := hmono _ _ h5
    repeat' apply mul_nonneg
    all_goals first | assumption | exact hpi _ | exact hci _
  · simp only [rateRHS6, EM.bind_ok_iff, EM.pure_ok_iff] at hv
    obtain ⟨a0, h0, a1, h1, a2, h2, a3, h3, a4, h4, a5, h5, a6, h6, rfl⟩ := hv
    have n0 := hmono _ _ h0
    have n1 := hmono _ _ h1
    have n2 := hmono _ _ h2
    have n3 := hmono _ _ h3
    have n4 := hmono _ _ h4
    have n5 := hmono _ _ h5
    have n6 := hmono _ _ h6
    repeat' apply mul_nonneg
    all_goals first | assumption | exact hpi _ | exact hci _
  · simp only [rateRHS7, EM.bind_ok_iff, EM.pure_ok_iff] at hv
    obtain ⟨a0, h0, a1, h1, a2, h2, a3, h3, a4, h4, a5, h5, a6, h6, rfl⟩ := hv
    have n0 := hmono _ _ h0
    have n1 := hmono _ _ h1
    have n2 := hmono _ _ h2
    have n3 := hmono _ _ h3
    have n4 := hmono _ _ h4
    have n5 := hmono _ _ h5
    have n6 := hmono _ _ h6
    repeat' apply mul_nonneg
    all_goals first | assumption | exact hpi _ | exact hci _
  · simp only [rateRHS8, EM.bind_ok_iff, EM.pure_ok_iff] at hv
    obtain ⟨a0, h0, a1, h1, a2, h2, a3, h3, a4, h4, a5, h5, a6, h6, rfl⟩ := hv
    have n0 := hmono _ _ h0
    have n1 := hmono _ _ h1
    have n2 := hmono _ _ h2
    have n3 := hmono _ _ h3
    have n4 := hmono _ _ h4
    have n5 := hmono _ _ h5
    have n6 := hmono _ _ h6
    repeat' apply mul_nonneg
    all_goals first | assumption | exact hpi _ | exact hci _
  · simp only [rateRHS9, EM.bind_ok_iff, EM.pure_ok_iff] at hv
    obtain ⟨a0, h0, a1, h1, a2, h2, a3, h3, a4, h4, a5, h5, a6, h6, rfl⟩ := hv
    have n0 := hmono _ _ h0
    have n1 := hmono _ _ h1
    have n2 := hmono _ _ h2
    have n3 := hmono _ _ h3
    have n4 := hmono _ _ h4
    have n5 := hmono _ _ h5
    have n6 := hmono _ _ h6
    repeat' apply mul_nonneg
    all_goals first | assumption | exact hpi _ | exact hci _
  · simp only [rateRHS10, EM.bind_ok_iff, EM.pure_ok_iff] at hv
    obtain ⟨a0, h0, a1, h1, a2, h2, a3, h3, a4, h4, a5, h5, a6, h6, rfl⟩ := hv
    have n0 := hmono _ _ h0
    have n1 := hmono _ _ h1
    have n2 := hmono _ _ h2
    have n3 := hmono _ _ h3
    have n4 := hmono _ _ h4
    have n5 := hmono _ _ h5
    have n6 := hmono _ _ h6
    repeat' apply mul_nonneg
    all_goals first | assumption | exact hpi _ | exact hci _
  · simp only [rateRHS11, EM.bind_ok_iff, EM.pure_ok_iff] at hv
    obtain ⟨a0, h0, a1, h1, a2, h2, a3, h3, a4, h4, a5, h5, a6, h6, rfl⟩ := hv
    have n0 := hmono _ _ h0
    have n1 := hmono _ _ h1
    have n2 := hmono _ _ h2
    have n3 := hmono _ _ h3
    have n4 := hmono _ _ h4
    have n5 := hmono _ _ h5
    have n6 := hmono _ _ h6
    repeat' apply mul_nonneg
    all_goals first | assumption | exact hpi _ | exact hci _
  · simp only [rateRHS12, EM.bind_ok_iff, EM.pure_ok_iff] at hv
    obtain ⟨a0, h0, a1, h1, a2, h2, a3, h3, a4, h4, a5, h5, a6, h6, rfl⟩ := hv
    have n0 := hmono _ _ h0
    have n1 := hmono _ _ h1
    have n2 := hmono _ _ h2
    have n3 := hmono _ _ h3
    have n4 := hmono _ _ h4
    have n5 := hmono _ _ h5
    have n6 := hmono _ _ h6
    repeat' apply mul_nonneg
    all_goals first | assumption | exact hpi _ | exact hci _
  · simp only [rateRHS13, EM.bind_ok_iff, EM.pure_ok_iff] at hv
    obtain ⟨a0, h0, a1, h1, a2, h2, a3, h3, a4, h4, a5, h5, a6, h6, rfl⟩ := hv
    have n0 := hmono _ _ h0
    have n1 := hmono _ _ h1
    have n2 := hmono _ _ h2
    have n3 := hmono _ _ h3
    have n4 := hmono _ _ h4
    have n5 := hmono _ _ h5
    have n6 := hmono _ _ h6
    repeat' apply mul_nonneg
    all_goals first | assumption | exact hpi _ | exact hci _
  · simp only [rateRHS14, EM.bind_ok_iff, EM.error_ok_iff, and_false,
      exists_false] at hv
  · simp only [rateRHS15, EM.pure_ok_iff] at hv
    obtain rfl := hv
    repeat' apply mul_nonneg
    all_goals first | exact hpi _ | exact hci _
  · simp only [rateRHS16, EM.bind_ok_iff, EM.pure_ok_iff] at hv
    obtain ⟨a0, h0, a1, h1, a2, h2, rfl⟩ := hv
    have n0 := hmono _ _ h0
    have n1 := hmono _ _ h1
    have n2 := hmono _ _ h2
    repeat' apply mul_nonneg
    all_goals first | assumption | exact hpi _ | exact hci _
  · simp only [rateRHS17, EM.bind_ok_iff, EM.pure_ok_iff] at hv
    obtain ⟨a0, h0, a1, h1, a2, h2, a3, h3, a4, h4, rfl⟩ := hv
    have n0 := hmono _ _ h0
    have n1 := hmono _ _ h1
    have n2 := hmono _ _ h2
    have n3 := hmono _ _ h3
    have n4 := hmono _ _ h4
    repeat' apply mul_nonneg
    all_goals first | assumption | exact hpi _ | exact hci _
  · simp only [rateRHS18, EM.bind_ok_iff, EM.pure_ok_iff] at hv
    obtain ⟨a0, h0, a1, h1, a2, h2, a3, h3, a4, h4, a5, h5, rfl⟩ := hv
    have n0 := hmono _ _ h0
    have n1 := hmono _ _ h1
    have n2 := hmono _ _ h2
    have n3 := hmono _ _ h3
    have n4 := hmono _ _ h4
    have n5 := hmono _ _ h5
    repeat' apply mul_nonneg
    all_goals first | assumption | exact hpi _ | exact hci _
  · simp only [rateRHS19, EM.bind_ok_iff, EM.pure_ok_iff] at hv
    obtain ⟨a0, h0, a1, h1, a2, h2, a3, h3, a4, h4, a5, h5, rfl⟩ := hv
    have n0 := hmono _ _ h0
    have n1 := hmono _ _ h1
    have n2 := hmono _ _ h2
    have n3 := hmono _ _ h3
    have n4 := hmono _ _ h4
    have n5 := hmono _ _ h5
    repeat' apply mul_nonneg
    all_goals first | assumption | exact hpi _ | exact hci _
  · simp only [rateRHS20, EM.bind_ok_iff, EM.pure_ok_iff] at hv
    obtain ⟨a0, h0, a1, h1, a2, h2, a3, h3, a4, h4, a5, h5, rfl⟩ := hv
    have n0 := hmono _ _ h0
    have n1 := hmono _ _ h1
    have n2 := hmono _ _ h2
    have n3 := hmono _ _ h3
    have n4 := hmono _ _ h4
    have n5 := hmono _ _ h5
    repeat' apply mul_nonneg
    all_goals first | assumption | exact hpi _ | exact hci _
  · simp only [rateRHS21, EM.bind_ok_iff, EM.pure_ok_iff] at hv
    obtain ⟨a0, h0, a1, h1, a2, h2, a3, h3, a4, h4, a5, h5, rfl⟩ := hv
    have n0 := hmono _ _ h0
    have n1 := hmono _ _ h1
    have n2 := hmono _ _ h2
    have n3 := hmono _ _ h3
    have n4 := hmono _ _ h4
    have n5 := hmono _ _ h5
    repeat' apply mul_nonneg
    all_goals first | assumption | exact hpi _ | exact hci _
  · simp only [rateRHS22, EM.bind_ok_iff, EM.pure_ok_iff] at hv
    obtain ⟨a0, h0, a1, h1, a2, h2, a3, h3, a4, h4, rfl⟩ := hv
    have n0 := hmono _ _ h0
    have n1 := hmono _ _ h1
    have n2 := hmono _ _ h2
    have n3 := hmono _ _ h3
    have n4 := hmono _ _ h4
    repeat' apply mul_nonneg
    all_goals first | assumption | exact hpi _ | exact hci _
  · simp only [rateRHS23, EM.bind_ok_iff, EM.pure_ok_iff] at hv
    obtain ⟨a0, h0, a1, h1, a2, h2, a3, h3, a4, h4, a5, h5, rfl⟩ := hv
    have n0 := hmono _ _ h0
    have n1 := hmono _ _ h1
    have n2 := hmono _ _ h2
    have n3 := hmono _ _ h3
    have n4 := hmono _ _ h4
    have n5 := hmono _ _ h5
    repeat' apply mul_nonneg
    all_goals first | assumption | exact hpi _ | exact hci _
  · simp only [rateRHS24, EM.bind_ok_iff, EM.pure_ok_iff] at hv
    obtain ⟨a0, h0, a1, h1, a2, h2, a3, h3, a4, h4, a5, h5, rfl⟩ := hv
    have n0 := hmono _ _ h0
    have n1 := hmono _ _ h1
    have n2 := hmono _ _ h2
    have n3 := hmono _ _ h3
    have n4 := hmono _ _ h4
    have n5 := hmono _ _ h5
    repeat' apply mul_nonneg
    all_goals first | assumption | exact hpi _ | exact hci _
  · simp only [rateRHS25, EM.bind_ok_iff, EM.pure_ok_iff] at hv
    obtain ⟨a0, h0, a1, h1, a2, h2, a3, h3, a4, h4, a5, h5, rfl⟩ := hv
    have n0 := hmono _ _ h0
    have n1 := hmono _ _ h1
    have n2 := hmono _ _ h2
    have n3 := hmono _ _ h3
    have n4 := hmono _ _ h4
    have n5 := hmono _ _ h5
    repeat' apply mul_nonneg
    all_goals first | assumption | exact hpi _ | exact hci _
  · simp only [rateRHS26, EM.bind_ok_iff, EM.pure_ok_iff] at hv
    obtain ⟨a0, h0, a1, h1, a2, h2, a3, h3, a4, h4, a5, h5, rfl⟩ := hv
    have n0 := hmono _ _ h0
    have n1 := hmono _ _ h1
    have n2 := hmono _ _ h2
    have n3 := hmono _ _ h3
    have n4 := hmono _ _ h4
    have n5 := hmono _ _ h5
    repeat' apply mul_nonneg
    all_goals first | assumption | exact hpi _ | exact hci _
  · simp only [rateRHS27, EM.bind_ok_iff, EM.pure_ok_iff] at hv
    obtain ⟨a0, h0, rfl⟩ := hv
    have n0 := hmono _ _ h0
    repeat' apply mul_nonneg
    all_goals first | assumption | exact hpi _ | exact hci _
  · simp only [rateRHS28, EM.bind_ok_iff, EM.pure_ok_iff] at hv
    obtain ⟨a0, h0, rfl⟩ := hv
    have n0 := hmono _ _ h0
    repeat' apply mul_nonneg
    all_goals first | assumption | exact hpi _ | exact hci _
  · simp only [rateRHS29, EM.bind_ok_iff, EM.pure_ok_iff] at hv
    obtain ⟨a0, h0, rfl⟩ := hv
    have n0 := hmono _ _ h0
    repeat' apply mul_nonneg
    all_goals first | assumption | exact hpi _ | exact hci _
  · simp only [rateRHS30, EM.bind_ok_iff, EM.pure_ok_iff] at hv
    obtain ⟨a0, h0, a1, h1, rfl⟩ := hv
    have n0 := hmono _ _ h0
    have n1 := hmono _ _ h1
    repeat' apply mul_nonneg
    all_goals first | assumption | exact hpi _ | exact hci _
  · simp only [rateRHS31, EM.bind_ok_iff, EM.pure_ok_iff] at hv
    obtain ⟨a0, h0, a1, h1, a2, h2, a3, h3, a4, h4, rfl⟩ := hv
    have n0 := hmono _ _ h0
    have n1 := hmono _ _ h1
    have n2 := hmono _ _ h2
    have n3 := hmono _ _ h3
    have n4 := hmono _ _ h4
    repeat' apply mul_nonneg
    all_goals first | assumption | exact hpi _ | exact hci _
  · simp only [rateRHS32, EM.bind_ok_iff, EM.pure_ok_iff] at hv
    obtain ⟨a0, h0, a1, h1, rfl⟩ := hv
    have n0 := hmono _ _ h0
    have n1 := hmono _ _ h1
    repeat' apply mul_nonneg
    all_goals first | assumption | exact hpi _ | exact hci _
  · simp only [rateRHS33, EM.bind_ok_iff, EM.pure_ok_iff] at hv
    obtain ⟨a0, h0, a1, h1, rfl⟩ := hv
    have n0 := hmono _ _ h0
    have n1 := hmono _ _ h1
    repeat' apply mul_nonneg
    all_goals first | assumption | exact hpi _ | exact hci _
  · simp only [rateRHS34, EM.bind_ok_iff, EM.pure_ok_iff] at hv
    obtain ⟨q1, hq1, q2, hq2, f, hf, a, ha, b, hb, rfl⟩ := hv
    obtain ⟨rfl, -⟩ := ediv_ok hq1
    obtain ⟨rfl, -⟩ := ediv_ok hq2
    obtain ⟨rfl, -⟩ := ediv_ok hf
    have na := hmono _ _ ha
    have nb := hmono _ _ hb
    have nf : 0 ≤ comps.getD 0 0 /
        (dgetD p "K_O2_AOB_ND"
          + (1.0 - 2.0 * tr.sqrtq (dgetD p "K_O2_AOB_ND" / dgetD p "K_I_O2_AOB"))
            * comps.getD 0 0
          + comps.getD 0 0 ^ 2 / dgetD p "K_I_O2_AOB") :=
      div_nonneg (hci 0) hden.le
    exact mul_nonneg (mul_nonneg (mul_nonneg (mul_nonneg (hpi _) na) nb) nf)
      (hci _)
  · simp only [rateRHS35, EM.bind_ok_iff, EM.pure_ok_iff] at hv
    obtain ⟨a0, h0, a1, h1, a2, h2, a3, h3, rfl⟩ := hv
    have n0 := hmono _ _ h0
    have n1 := hmono _ _ h1
    have n2 := hmono _ _ h2
    have n3 := hmono _ _ h3
    repeat' apply mul_nonneg
    all_goals first | assumption | exact hpi _ | exact hci _
  · simp only [rateRHS36, EM.pure_ok_iff] at hv
    obtain rfl := hv
    repeat' apply mul_nonneg
    all_goals first | exact hpi _ | exact hci _
  · simp only [rateRHS37, EM.pure_ok_iff] at hv
    obtain rfl := hv
    repeat' apply mul_nonneg
    all_goals first | exact hpi _ | exact hci _
  · simp only [rateRHS38, EM.pure_ok_iff] at hv
    obtain rfl := hv
    repeat' apply mul_nonneg
    all_goals first | exact hpi _ | exact hci _
  · simp only [rateRHS39, EM.bind_ok_iff, EM.pure_ok_iff] at hv
    obtain ⟨a0, h0, rfl⟩ := hv
    have n0 := hmono _ _ h0
    repeat' apply mul_nonneg
    all_goals first | assumption | exact hpi _ | exact hci _

set_option maxHeartbeats 4000000 in
/-- C6 (counterexample to the claim as stated): the state vector
`compsNegPP` has 24 entries, all non-negative, with nonzero biomass
denominators `comps[15]` and `comps[16]`, yet process rate 17 (the aerobic
polyphosphate-storage rate of line 725) evaluates to the strictly negative
value -3125/3333, because `monods[35] = monod(K_MAX_P - X_PP/X_PAO,
K_IPP_P)` is -1 when `X_PP/X_PAO = 0.35 > K_MAX_P = 0.34`. -/
theorem c6_counterexample :
    compsNegPP.length = 24 ∧
    (∀ x ∈ compsNegPP, 0 ≤ x) ∧
    compsNegPP.getD 15 0 ≠ 0 ∧
    compsNegPP.getD 16 0 ≠ 0 ∧
    ∃ r : ℚ,
      (ratesIdeal tr0 m0.params compsNegPP).getD 17
          (Except.error PyErr.typeError) = .ok r ∧
      r < 0 := by
  refine ⟨rfl, by norm_num [compsNegPP, List.forall_mem_cons], by decide,
    by decide, -3125/3333, ?_, by norm_num⟩
  rw [m0_params]
  have hsel : (ratesIdeal tr0 (paramWrites kineticsDefaults)
        compsNegPP).getD 17 (Except.error PyErr.typeError)
      = rateRHS17 (dgetD (paramWrites kineticsDefaults))
          (fun i => compsNegPP.getD i 0)
          (monodAt tr0 (paramWrites kineticsDefaults) compsNegPP) := rfl
  rw [hsel]
  have h32 : monodAt tr0 (paramWrites kineticsDefaults) compsNegPP 32
      = .ok (5/6) := by
    have h : monodAt tr0 (paramWrites kineticsDefaults) compsNegPP 32
        = emonod (compsNegPP.getD 0 0)
            (dgetD (paramWrites kineticsDefaults) "K_O2_P") := rfl
    rw [h, show (compsNegPP.getD 0 0 : ℚ) = 1 from rfl,
      show dgetD (paramWrites kineticsDefaults) "K_O2_P" = 0.2 from rfl]
    norm_num [emonod, ediv]
  have h33 : monodAt tr0 (paramWrites kineticsDefaults) compsNegPP 33
      = .ok (5/6) := by
    have h : monodAt tr0 (paramWrites kineticsDefaults) compsNegPP 33
        = emonod (compsNegPP.getD 9 0)
            (dgetD (paramWrites kineticsDefaults) "K_P_P") := rfl
    rw [h, show (compsNegPP.getD 9 0 : ℚ) = 1 from rfl,
      show dgetD (paramWrites kineticsDefaults) "K_P_P" = 0.2 from rfl]
    norm_num [emonod, ediv]
  have h30 : monodAt tr0 (paramWrites kineticsDefaults) compsNegPP 30
      = .ok (10/11) := by
    have h : monodAt tr0 (paramWrites kineticsDefaults) compsNegPP 30
        = emonod (compsNegPP.getD 11 0)
            (dgetD (paramWrites kineticsDefaults) "K_ALK_P") := rfl
    rw [h, show (compsNegPP.getD 11 0 : ℚ) = 1 from rfl,
      show dgetD (paramWrites kineticsDefaults) "K_ALK_P" = 0.1 from rfl]
    norm_num [emonod, ediv]
  have h34 : monodAt tr0 (paramWrites kineticsDefaults) compsNegPP 34
      = .ok (100/101) := by
    have h : monodAt tr0 (paramWrites kineticsDefaults) compsNegPP 34
        = (ediv (compsNegPP.getD 18 0) (compsNegPP.getD 16 0) >>= fun q =>
            emonod q (dgetD (paramWrites kineticsDefaults) "K_PHA_P")) := rfl
    rw [h, show (compsNegPP.getD 18 0 : ℚ) = 1 from rfl,
      show (compsNegPP.getD 16 0 : ℚ) = 1 from rfl,
      show dgetD (paramWrites kineticsDefaults) "K_PHA_P" = 0.01 from rfl]
    refine EM.bind_ok_iff.mpr ⟨1, by norm_num [ediv], ?_⟩
    norm_num [emonod, ediv]
  have h35 : monodAt tr0 (paramWrites kineticsDefaults) compsNegPP 35
      = .ok (-1) := by
    have h : monodAt tr0 (paramWrites kineticsDefaults) compsNegPP 35
        = (ediv (compsNegPP.getD 17 0) (compsNegPP.getD 16 0) >>= fun q =>
            emonod (dgetD (paramWrites kineticsDefaults) "K_MAX_P" - q)
              (dgetD (paramWrites kineticsDefaults) "K_IPP_P")) := rfl
    rw [h, show (compsNegPP.getD 17 0 : ℚ) = 0.35 from rfl,
      show (compsNegPP.getD 16 0 : ℚ) = 1 from rfl,
      show dgetD (paramWrites kineticsDefaults) "K_MAX_P" = 0.34 from rfl,
      show dgetD (paramWrites kineticsDefaults) "K_IPP_P" = 0.02 from rfl]
    refine EM.bind_ok_iff.mpr ⟨0.35, by norm_num [ediv], ?_⟩
    norm_num [emonod, ediv]
  simp only [rateRHS17, h32, h33, h30, h34, h35, EM.run_bind_ok]
  rw [show dgetD (paramWrites kineticsDefaults) "q_PP" = 1.5 from rfl,
    show (compsNegPP.getD 16 0 : ℚ) = 1 from rfl]
  norm_num [EM.pure_ok_iff]

/-- C6 witness: the amended theorem applied at the initialized model with
the all-ones state vector except `X_PP = 0` (so the storage ratio bound
holds) and the degenerate transcendental environment `tr0`. -/
theorem c6_rates_nonneg_witness :
    (∀ x ∈ compsOkPP, 0 ≤ x) ∧
    ∀ r ∈ ratesIdeal tr0 m0.params compsOkPP, ∀ v : ℚ, r = .ok v → 0 ≤ v := by
  have hp : ∀ kv ∈ m0.params, 0 ≤ kv.2 := by
    simp only [m0_params]
    exact paramWrites_nonneg kineticsDefaults kineticsDefaults_nonneg
  have hc : ∀ x ∈ compsOkPP, 0 ≤ x := by
    norm_num [compsOkPP, List.forall_mem_cons]
  have hratio : compsOkPP.getD 17 0 / compsOkPP.getD 16 0
      ≤ dgetD m0.params "K_MAX_P" := by
    rw [m0_params,
      show dgetD (paramWrites kineticsDefaults) "K_MAX_P" = 0.34 from rfl,
      show (compsOkPP.getD 17 0 : ℚ) = 0 from rfl,
      show (compsOkPP.getD 16 0 : ℚ) = 1 from rfl]
    norm_num
  have hexp : 0 ≤ tr0.exp (-2300 / (273.15 + 20)) := le_of_eq (by rfl)
  have hden : 0 < dgetD m0.params "K_O2_AOB_ND"
      + (1.0 - 2.0 * tr0.sqrtq (dgetD m0.params "K_O2_AOB_ND"
          / dgetD m0.params "K_I_O2_AOB")) * compsOkPP.getD 0 0
      + compsOkPP.getD 0 0 ^ 2 / dgetD m0.params "K_I_O2_AOB" := by
    rw [m0_params,
      show dgetD (paramWrites kineticsDefaults) "K_O2_AOB_ND" = 0.5 from rfl,
      show dgetD (paramWrites kineticsDefaults) "K_I_O2_AOB" = 0.8 from rfl,
      show (compsOkPP.getD 0 0 : ℚ) = 1 from rfl,
      show tr0.sqrtq ((0.5 : ℚ) / 0.8) = 0 from rfl]
    norm_num
  exact ⟨hc, c6_rates_nonneg tr0 m0.params compsOkPP hp hc hratio hexp hden⟩

end ASM2dN2O
